import Mathlib

/-!
Shallow embedding of `alphagenome_client.py` (the AlphaGenome CLI wrapper).

Python dictionaries returned by the client methods are modelled by the
inductive `Val` of JSON-like values; Python exceptions are modelled by `Exc`
(a class name plus a message), and a method body that may raise is a value of
`Except Exc Val`.  The external `alphagenome` library (the `dna_client`
object created by `create(api_key)`, `Variant.from_str`, and the stdlib
`json.loads`) is not part of this repository, so its operations are taken as
parameters (`DnaClient`, `ExtWorld`); the `Interval` overlap/intersection
arithmetic it provides is modelled from the spec where needed.  Python
floats are modelled as exact rationals.
-/

namespace AG

/-- A Python exception, reduced to what the wrapper observes: the class name
(`type(e).__name__`) and the message (`str(e)`). -/
structure Exc where
  type : String
  msg : String
deriving Repr, DecidableEq

/-- JSON-like Python values: the payloads the wrapper builds and prints. -/
inductive Val where
  | str (s : String)
  | int (n : Int)
  | rat (q : ℚ)
  | bool (b : Bool)
  | none
  | list (xs : List Val)
  | dict (kvs : List (String × Val))
deriving Repr

/-- Association-list lookup for the entries of a `Val.dict`. -/
def assocLookup (k : String) : List (String × Val) → Option Val
  | [] => Option.none
  | (k2, v) :: rest => if k2 = k then some v else assocLookup k rest

/-- Key lookup on a `Val`, returning `none` when it is not a dict or the key
is absent. -/
def dictLookup (v : Val) (k : String) : Option Val :=
  match v with
  | .dict kvs => assocLookup k kvs
  | _ => Option.none

/-- Two-level key lookup on a `Val`. -/
def lookup2 (v : Val) (k1 k2 : String) : Option Val :=
  (dictLookup v k1).bind (fun x => dictLookup x k2)

/-- Three-level key lookup on a `Val`. -/
def lookup3 (v : Val) (k1 k2 k3 : String) : Option Val :=
  (lookup2 v k1 k2).bind (fun x => dictLookup x k3)

/-- The uniform failure envelope every method returns from its
`except Exception` handler:
`{"success": False, "error": str(e), "type": type(e).__name__}`. -/
def errEnvelope (e : Exc) : Val :=
  .dict [("success", .bool false), ("error", .str e.msg), ("type", .str e.type)]

/-- The `try ... except Exception` wrapper shared by every client method: a
raised exception becomes the failure envelope instead of propagating. -/
def tryWrap (b : Except Exc Val) : Val :=
  match b with
  | .ok v => v
  | .error e => errEnvelope e

/-- Python truthiness (`bool(x)`) restricted to `Val`. -/
def pyTruthy : Val → Bool
  | .str s => s ≠ ""
  | .int n => n ≠ 0
  | .rat q => q ≠ 0
  | .bool b => b
  | .none => false
  | .list xs => ¬ xs.isEmpty
  | .dict kvs => ¬ kvs.isEmpty

/-- Python subscripting `v[k]` on a dict: raises `KeyError` when the key is
missing and `TypeError` when the value is not a dict. -/
def dictGetE (v : Val) (k : String) : Except Exc Val :=
  match v with
  | .dict kvs =>
    match assocLookup k kvs with
    | some x => .ok x
    | Option.none => .error ⟨"KeyError", "\x27" ++ k ++ "\x27"⟩
  | _ => .error ⟨"TypeError", "value is not subscriptable"⟩

/-- Python uppercasing, modelled for the ASCII alphabet the wrapper uses. -/
def pyUpper (s : String) : String := String.mk (s.data.map Char.toUpper)

/-- Python lowercasing, modelled for the ASCII alphabet the wrapper uses. -/
def pyLower (s : String) : String := String.mk (s.data.map Char.toLower)

/-- Python `c in s` for a single-character needle. -/
def pyInStr (c : Char) (s : String) : Bool := decide (c ∈ s.data)

/-- Python `str.split(sep)` on the character list, for a one-character
separator: splitting an empty string yields one empty field, and adjacent
separators yield empty fields, as in Python. -/
def splitChar (sep : Char) : List Char → List (List Char)
  | [] => [[]]
  | c :: cs =>
    if c = sep then [] :: splitChar sep cs
    else
      match splitChar sep cs with
      | [] => [[c]]
      | g :: gs => (c :: g) :: gs

/-- Python `s.split(sep)` for a one-character separator. -/
def pySplit (sep : Char) (s : String) : List String :=
  (splitChar sep s.data).map (fun l => String.mk l)

/-- Characters Python `int()` strips from both ends of its argument. -/
def pyWs (c : Char) : Bool := c = ' ' ∨ c = '\t' ∨ c = '\n' ∨ c = '\r'

/-- Strip `pyWs` characters from both ends of a character list. -/
def stripWs (cs : List Char) : List Char :=
  ((cs.dropWhile pyWs).reverse.dropWhile pyWs).reverse

/-- Digit run accepted by Python `int()` after the optional sign: decimal
digits with single underscores allowed between digits; `prevUnderscore`
tracks whether the previous character was an underscore (an underscore may
not follow another underscore and may not end the run). -/
def digitSeqGo (acc : Nat) (prevUnderscore : Bool) : List Char → Option Nat
  | [] => if prevUnderscore then Option.none else some acc
  | c :: cs =>
    if c = '_' then (if prevUnderscore then Option.none else digitSeqGo acc true cs)
    else if c.isDigit then digitSeqGo (acc * 10 + (c.toNat - 48)) false cs
    else Option.none

/-- Parse a nonempty digit run (with embedded underscores) to a natural. -/
def digitSeq : List Char → Option Nat
  | [] => Option.none
  | c :: cs => if c.isDigit then digitSeqGo (c.toNat - 48) false cs else Option.none

/-- Sign handling of Python `int()` on the whitespace-stripped character
list: an optional leading plus or minus sign before the digit run. -/
def pyIntCore : List Char → Option Int
  | [] => Option.none
  | c0 :: rest =>
    if c0 = '+' then (digitSeq rest).map (fun n => (n : Int))
    else if c0 = '-' then (digitSeq rest).map (fun n => -(n : Int))
    else (digitSeq (c0 :: rest)).map (fun n => (n : Int))

/-- Python `int(s)`: strip whitespace, optional sign, then digits; raises
`ValueError` otherwise. -/
def pyInt (s : String) : Except Exc Int :=
  match pyIntCore (stripWs s.data) with
  | some n => .ok n
  | Option.none => .error ⟨"ValueError", "invalid literal for int() with base 10: \x27" ++ s ++ "\x27"⟩

/-- The organism enum of the external library; the wrapper only ever selects
`HOMO_SAPIENS`. -/
inductive Organism where
  | HOMO_SAPIENS
  | MUS_MUSCULUS
deriving Repr, DecidableEq

/-- The organism conversion every client-contacting method performs:
`Organism.HOMO_SAPIENS if organism.lower() in [..] else Organism.HOMO_SAPIENS`. -/
def organismToEnum (organism : String) : Organism :=
  if pyLower organism = "human" ∨ pyLower organism = "homo_sapiens" then
    Organism.HOMO_SAPIENS
  else
    Organism.HOMO_SAPIENS

/-- Members of the external `OutputType` enum, as listed by
`get_supported_outputs`. -/
inductive OutputType where
  | ATAC | CAGE | CHIP_HISTONE | CHIP_TF | CONTACT_MAPS | DNASE
  | PROCAP | RNA_SEQ | SPLICE_JUNCTIONS | SPLICE_SITES | SPLICE_SITE_USAGE
deriving Repr, DecidableEq

/-- Name lookup on the `OutputType` enum: `getattr(OutputType, name)` guarded
by `hasattr(OutputType, name)`. -/
def OutputType.ofName (s : String) : Option OutputType :=
  if s = "ATAC" then some .ATAC
  else if s = "CAGE" then some .CAGE
  else if s = "CHIP_HISTONE" then some .CHIP_HISTONE
  else if s = "CHIP_TF" then some .CHIP_TF
  else if s = "CONTACT_MAPS" then some .CONTACT_MAPS
  else if s = "DNASE" then some .DNASE
  else if s = "PROCAP" then some .PROCAP
  else if s = "RNA_SEQ" then some .RNA_SEQ
  else if s = "SPLICE_JUNCTIONS" then some .SPLICE_JUNCTIONS
  else if s = "SPLICE_SITES" then some .SPLICE_SITES
  else if s = "SPLICE_SITE_USAGE" then some .SPLICE_SITE_USAGE
  else Option.none

/-- The output-type conversion snippet shared by the prediction methods:
`requested_outputs = None`, replaced by the list comprehension only when
`output_types` is truthy (a nonempty list). -/
def convertOutputTypes (output_types : Option (List String)) : Option (List OutputType) :=
  match output_types with
  | Option.none => Option.none
  | some l =>
    if l.isEmpty then Option.none
    else some (l.filterMap (fun ot => OutputType.ofName (pyUpper ot)))

/-- The `VariantFormat` enum of the external library. -/
inductive VariantFormat where
  | DEFAULT | GNOMAD | GTEX | OPEN_TARGETS | OPEN_TARGETS_BIGQUERY
deriving Repr, DecidableEq

/-- The `format_map.get(variant_format.lower(), VariantFormat.DEFAULT)`
lookup in `parse_variant_string`. -/
def formatFromName (s : String) : VariantFormat :=
  if s = "default" then .DEFAULT
  else if s = "gnomad" then .GNOMAD
  else if s = "gtex" then .GTEX
  else if s = "open_targets" then .OPEN_TARGETS
  else if s = "open_targets_bigquery" then .OPEN_TARGETS_BIGQUERY
  else .DEFAULT

/-- A genomic interval of the external `alphagenome.data.genome` module. -/
structure Interval where
  chromosome : String
  start : Int
  «end» : Int
deriving Repr, DecidableEq

/-- Modelled from the spec: constructing an external `Interval` validates its
coordinates (a negative or inverted interval raises `ValueError`); this
construction is external-library behaviour, not code of this repository. -/
def Interval.make (chromosome : String) (start «end» : Int) : Except Exc Interval :=
  if start < 0 ∨ «end» < 0 then
    .error ⟨"ValueError", "Interval coordinates must be non-negative."⟩
  else if «end» < start then
    .error ⟨"ValueError", "Interval end must not be before start."⟩
  else
    .ok ⟨chromosome, start, «end»⟩

/-- Modelled from the spec: the interval overlap test of the external
library (same chromosome and overlapping half-open coordinate ranges). -/
def Interval.overlaps (a b : Interval) : Bool :=
  a.chromosome = b.chromosome ∧ a.start < b.«end» ∧ b.start < a.«end»

/-- Modelled from the spec: the interval intersection of the external
library, `None` when the intervals do not overlap. -/
def Interval.intersect (a b : Interval) : Option Interval :=
  if a.overlaps b then some ⟨a.chromosome, max a.start b.start, min a.«end» b.«end»⟩
  else Option.none

/-- A genetic variant of the external `alphagenome.data.genome` module. -/
structure Variant where
  chromosome : String
  position : Int
  reference_bases : String
  alternate_bases : String
  name : String
deriving Repr, DecidableEq

/-- Modelled from the spec: constructing an external `Variant` from explicit
fields; the auto-derived `name` is never read by the wrapper. -/
def Variant.make (chromosome : String) (position : Int) (ref alt : String) : Variant :=
  ⟨chromosome, position, ref, alt, chromosome ++ ":" ++ toString position ++ ":" ++ ref ++ ">" ++ alt⟩

/-- Prediction output object of the external library, reduced to the five
attributes `_serialize_output` probes. -/
structure ExtOutput where
  atac : Option Unit
  cage : Option Unit
  dnase : Option Unit
  histone_marks : Option Unit
  gene_expression : Option Unit
deriving Repr, DecidableEq

/-- Variant prediction output object of the external library, reduced to the
three attributes `_serialize_variant_output` probes. -/
structure ExtVariantOutput where
  reference : Option Unit
  alternate : Option Unit
  difference : Option Unit
deriving Repr, DecidableEq

/-- Output-metadata object of the external library, reduced to the five
attributes `_serialize_metadata` probes. -/
structure ExtMetadata where
  atac : Option Unit
  cage : Option Unit
  dnase : Option Unit
  histone_marks : Option Unit
  gene_expression : Option Unit
deriving Repr, DecidableEq

/-- Interval scorers of the external library; the wrapper only ever passes
the empty list, so no inhabitant is needed. -/
inductive IntervalScorer where
deriving Repr, DecidableEq

/-- The external `dna_client` object returned by `create(api_key)`.  Each
field is one remote operation; any of them may raise, which the wrapper must
turn into the failure envelope. -/
structure DnaClient where
  predict_sequence : String → Organism → Option (List OutputType) → Option (List String) → Except Exc ExtOutput
  predict_interval : Interval → Organism → Option (List OutputType) → Option (List String) → Except Exc ExtOutput
  predict_variant : Interval → Variant → Organism → Option (List OutputType) → Option (List String) → Except Exc ExtOutput
  score_variant : Interval → Variant → Organism → Except Exc Val
  output_metadata : Organism → Except Exc ExtMetadata
  predict_sequences : List String → Organism → Option (List OutputType) → Option (List String) → Int → Except Exc (List ExtOutput)
  predict_intervals : List Interval → Organism → Option (List OutputType) → Option (List String) → Int → Except Exc (List ExtOutput)
  predict_variants : Interval → List Variant → Organism → Option (List OutputType) → Option (List String) → Int → Except Exc (List ExtVariantOutput)
  score_variants : Interval → List Variant → Organism → Int → Except Exc (List Val)
  score_interval : Interval → List IntervalScorer → Organism → Except Exc Val
  score_intervals : List Interval → List IntervalScorer → Organism → Int → Except Exc (List Val)
  score_ism_variants : Interval → Interval → Organism → Int → Except Exc (List Val)

/-- The external world outside the repository: the `create` factory of the
library, the module-level `Variant.from_str` parser, and stdlib
`json.loads`. -/
structure ExtWorld where
  create : String → Except Exc DnaClient
  variant_from_str : String → VariantFormat → Except Exc Variant
  json_loads : String → Except Exc Val

/-- The wrapper class: its only state is the `dna_client` object stored by
`__init__`. -/
structure AlphaGenomeClient where
  client : DnaClient

/-- The `__init__` of `AlphaGenomeClient`: an empty API key raises
`ValueError`, otherwise the external `create` is called. -/
def AlphaGenomeClient.init (w : ExtWorld) (api_key : String) : Except Exc AlphaGenomeClient :=
  if api_key = "" then .error ⟨"ValueError", "API key is required"⟩
  else do
    let c ← w.create api_key
    pure ⟨c⟩
/-- The `_serialize_output` helper: probes the five known attributes of a
prediction output; its internal `try` has no failing operation in the model. -/
def _serialize_output (output : ExtOutput) : Val :=
  .dict [("type", .str "prediction_output"),
         ("data", .dict (
           (if output.atac.isSome then [("atac", Val.str "ATAC-seq data available")] else []) ++
           (if output.cage.isSome then [("cage", Val.str "CAGE data available")] else []) ++
           (if output.dnase.isSome then [("dnase", Val.str "DNase data available")] else []) ++
           (if output.histone_marks.isSome then [("histone_marks", Val.str "Histone marks data available")] else []) ++
           (if output.gene_expression.isSome then [("gene_expression", Val.str "Gene expression data available")] else [])))]

/-- The `_serialize_scores` helper: enumerates a list of scores, and leaves
the `scores` list empty when the value is not a Python list. -/
def _serialize_scores (scores : Val) : Val :=
  .dict [("type", .str "variant_scores"),
         ("scores",
           match scores with
           | .list xs => .list (xs.enum.map (fun p =>
               Val.dict [("scorer_index", .int p.1), ("data", .str "Score data available (AnnData format)")]))
           | _ => .list [])]

/-- The `_serialize_variant_output` helper: probes the three known attributes
of a variant prediction output. -/
def _serialize_variant_output (output : ExtVariantOutput) : Val :=
  .dict [("type", .str "variant_prediction_output"),
         ("data", .dict (
           (if output.reference.isSome then [("reference", Val.str "Reference prediction data available")] else []) ++
           (if output.alternate.isSome then [("alternate", Val.str "Alternate prediction data available")] else []) ++
           (if output.difference.isSome then [("difference", Val.str "Difference prediction data available")] else [])))]

/-- The `_serialize_metadata` helper: collects the names of the available
output attributes. -/
def _serialize_metadata (metadata : ExtMetadata) : Val :=
  .dict [("type", .str "output_metadata"),
         ("available_outputs", .list (
           (if metadata.atac.isSome then [Val.str "atac"] else []) ++
           (if metadata.cage.isSome then [Val.str "cage"] else []) ++
           (if metadata.dnase.isSome then [Val.str "dnase"] else []) ++
           (if metadata.histone_marks.isSome then [Val.str "histone_marks"] else []) ++
           (if metadata.gene_expression.isSome then [Val.str "gene_expression"] else [])))]

/-- The DNA alphabet `set('ATGCN')` used by the sequence validations. -/
def dnaCharsN : List Char := ['A', 'T', 'G', 'C', 'N']

/-- The allele alphabet `set('ATGC')` used by the variant validation. -/
def dnaChars4 : List Char := ['A', 'T', 'G', 'C']

/-- The `issubset` test of the sequence validations: every character of the
string lies in the given alphabet. -/
def allInAlphabet (s : String) (alphabet : List Char) : Bool :=
  s.data.all (fun c => alphabet.contains c)

/-- The supported sequence lengths listed in the source. -/
def supportedLengths : List Int := [2048, 16384, 131072, 524288, 1048576]

/-- An interval argument dictionary, typed with the three keys the methods
read (`interval["chromosome"]`, `interval["start"]`, `interval["end"]`). -/
structure IntervalDict where
  chromosome : String
  start : Int
  «end» : Int
deriving Repr, DecidableEq

/-- A variant argument dictionary, typed with the four keys the methods read
(`variant["chromosome"]`, `["position"]`, `["ref"]`, `["alt"]`). -/
structure VariantDict where
  chromosome : String
  position : Int
  ref : String
  alt : String
deriving Repr, DecidableEq

/-- Python f-string `f"{chromosome}:{start}-{end}"`. -/
def fmtInterval (chromosome : String) (start «end» : Int) : String :=
  chromosome ++ ":" ++ toString start ++ "-" ++ toString «end»

/-- Python f-string `f"{chromosome}:{position}{ref}>{alt}"`. -/
def fmtVariant (chromosome : String) (position : Int) (ref alt : String) : String :=
  chromosome ++ ":" ++ toString position ++ ref ++ ">" ++ alt

namespace AlphaGenomeClient

/-- Everything `predict_sequence` computes before contacting the client:
sequence validation, then the tuple of arguments of the client call
(uppercased sequence, organism enum, requested outputs, ontology terms). -/
def predict_sequenceRequest (sequence organism : String)
    (output_types ontology_terms : Option (List String)) :
    Except Exc (String × Organism × Option (List OutputType) × Option (List String)) := do
  if sequence = "" then
    throw ⟨"ValueError", "Sequence must be a non-empty string"⟩
  if allInAlphabet (pyUpper sequence) dnaCharsN = false then
    throw ⟨"ValueError", "Sequence contains invalid characters. Only A, T, G, C, N are allowed"⟩
  pure (pyUpper sequence, organismToEnum organism, convertOutputTypes output_types, ontology_terms)

/-- Body of `predict_sequence` inside its `try`. -/
def predict_sequenceBody (self : AlphaGenomeClient) (sequence organism : String)
    (output_types ontology_terms : Option (List String)) : Except Exc Val := do
  let (seqU, organism_enum, requested_outputs, terms) ←
    predict_sequenceRequest sequence organism output_types ontology_terms
  let result ← self.client.predict_sequence seqU organism_enum requested_outputs terms
  pure (.dict [("success", .bool true),
               ("result", _serialize_output result),
               ("sequence_length", .int sequence.length)])

/-- The method `predict_sequence`: the body wrapped in the uniform envelope. -/
def predict_sequence (self : AlphaGenomeClient) (sequence : String)
    (organism : String)
    (output_types : Option (List String))
    (ontology_terms : Option (List String)) : Val :=
  tryWrap (predict_sequenceBody self sequence organism output_types ontology_terms)

/-- Argument construction of `predict_interval` up to the client call. -/
def predict_intervalRequest (chromosome : String) (start «end» : Int) (organism : String)
    (output_types ontology_terms : Option (List String)) :
    Except Exc (Interval × Organism × Option (List OutputType) × Option (List String)) := do
  let interval ← Interval.make chromosome start «end»
  pure (interval, organismToEnum organism, convertOutputTypes output_types, ontology_terms)

/-- Body of `predict_interval` inside its `try`. -/
def predict_intervalBody (self : AlphaGenomeClient) (chromosome : String) (start «end» : Int)
    (organism : String) (output_types ontology_terms : Option (List String)) : Except Exc Val := do
  let (interval, organism_enum, requested_outputs, terms) ←
    predict_intervalRequest chromosome start «end» organism output_types ontology_terms
  let result ← self.client.predict_interval interval organism_enum requested_outputs terms
  pure (.dict [("success", .bool true),
               ("result", _serialize_output result),
               ("interval", .str (fmtInterval chromosome start «end»))])

/-- The method `predict_interval`. -/
def predict_interval (self : AlphaGenomeClient) (chromosome : String) (start «end» : Int)
    (organism : String)
    (output_types : Option (List String))
    (ontology_terms : Option (List String)) : Val :=
  tryWrap (predict_intervalBody self chromosome start «end» organism output_types ontology_terms)

/-- Argument construction of `predict_variant` up to the client call. -/
def predict_variantRequest (chromosome : String) (position : Int) (ref alt : String)
    (interval_start interval_end : Int) (organism : String)
    (output_types ontology_terms : Option (List String)) :
    Except Exc (Interval × Variant × Organism × Option (List OutputType) × Option (List String)) := do
  let interval ← Interval.make chromosome interval_start interval_end
  let variant := Variant.make chromosome position ref alt
  pure (interval, variant, organismToEnum organism, convertOutputTypes output_types, ontology_terms)

/-- Body of `predict_variant` inside its `try`. -/
def predict_variantBody (self : AlphaGenomeClient) (chromosome : String) (position : Int)
    (ref alt : String) (interval_start interval_end : Int) (organism : String)
    (output_types ontology_terms : Option (List String)) : Except Exc Val := do
  let (interval, variant, organism_enum, requested_outputs, terms) ←
    predict_variantRequest chromosome position ref alt interval_start interval_end organism
      output_types ontology_terms
  let result ← self.client.predict_variant interval variant organism_enum requested_outputs terms
  pure (.dict [("success", .bool true),
               ("result", _serialize_output result),
               ("variant", .str (fmtVariant chromosome position ref alt)),
               ("interval", .str (fmtInterval chromosome interval_start interval_end))])

/-- The method `predict_variant`. -/
def predict_variant (self : AlphaGenomeClient) (chromosome : String) (position : Int)
    (ref alt : String) (interval_start interval_end : Int)
    (organism : String)
    (output_types : Option (List String))
    (ontology_terms : Option (List String)) : Val :=
  tryWrap (predict_variantBody self chromosome position ref alt interval_start interval_end
    organism output_types ontology_terms)

/-- Argument construction of `score_variant` up to the client call. -/
def score_variantRequest (chromosome : String) (position : Int) (ref alt : String)
    (interval_start interval_end : Int) (organism : String) :
    Except Exc (Interval × Variant × Organism) := do
  let interval ← Interval.make chromosome interval_start interval_end
  let variant := Variant.make chromosome position ref alt
  pure (interval, variant, organismToEnum organism)

/-- Body of `score_variant` inside its `try`. -/
def score_variantBody (self : AlphaGenomeClient) (chromosome : String) (position : Int)
    (ref alt : String) (interval_start interval_end : Int) (organism : String) :
    Except Exc Val := do
  let (interval, variant, organism_enum) ←
    score_variantRequest chromosome position ref alt interval_start interval_end organism
  let result ← self.client.score_variant interval variant organism_enum
  pure (.dict [("success", .bool true),
               ("result", _serialize_scores result),
               ("variant", .str (fmtVariant chromosome position ref alt)),
               ("interval", .str (fmtInterval chromosome interval_start interval_end))])

/-- The method `score_variant`. -/
def score_variant (self : AlphaGenomeClient) (chromosome : String) (position : Int)
    (ref alt : String) (interval_start interval_end : Int)
    (organism : String) : Val :=
  tryWrap (score_variantBody self chromosome position ref alt interval_start interval_end organism)

/-- Argument construction of `get_output_metadata` up to the client call. -/
def get_output_metadataRequest (organism : String) : Except Exc Organism :=
  pure (organismToEnum organism)

/-- Body of `get_output_metadata` inside its `try`; note that the raw
`organism` string is echoed in the result. -/
def get_output_metadataBody (self : AlphaGenomeClient) (organism : String) : Except Exc Val := do
  let organism_enum ← get_output_metadataRequest organism
  let metadata ← self.client.output_metadata organism_enum
  pure (.dict [("success", .bool true),
               ("result", _serialize_metadata metadata),
               ("organism", .str organism)])

/-- The method `get_output_metadata`. -/
def get_output_metadata (self : AlphaGenomeClient) (organism : String) : Val :=
  tryWrap (get_output_metadataBody self organism)

/-- Argument construction of `predict_sequences` up to the client call:
list validation, then uppercased sequences and converted options. -/
def predict_sequencesRequest (sequences : List String) (organism : String)
    (output_types ontology_terms : Option (List String)) (max_workers : Int) :
    Except Exc (List String × Organism × Option (List OutputType) × Option (List String) × Int) := do
  if sequences = [] then
    throw ⟨"ValueError", "Sequences must be a non-empty list"⟩
  pure (sequences.map pyUpper, organismToEnum organism, convertOutputTypes output_types,
        ontology_terms, max_workers)

/-- Body of `predict_sequences` inside its `try`. -/
def predict_sequencesBody (self : AlphaGenomeClient) (sequences : List String) (organism : String)
    (output_types ontology_terms : Option (List String)) (max_workers : Int) : Except Exc Val := do
  let (seqs, organism_enum, requested_outputs, terms, workers) ←
    predict_sequencesRequest sequences organism output_types ontology_terms max_workers
  let results ← self.client.predict_sequences seqs organism_enum requested_outputs terms workers
  pure (.dict [("success", .bool true),
               ("results", .list (results.map _serialize_output)),
               ("sequence_count", .int sequences.length)])

/-- The method `predict_sequences`. -/
def predict_sequences (self : AlphaGenomeClient) (sequences : List String)
    (organism : String)
    (output_types : Option (List String))
    (ontology_terms : Option (List String))
    (max_workers : Int) : Val :=
  tryWrap (predict_sequencesBody self sequences organism output_types ontology_terms max_workers)

/-- Argument construction of `predict_intervals` up to the client call: each
interval dictionary becomes an external `Interval`. -/
def predict_intervalsRequest (intervals : List IntervalDict) (organism : String)
    (output_types ontology_terms : Option (List String)) (max_workers : Int) :
    Except Exc (List Interval × Organism × Option (List OutputType) × Option (List String) × Int) := do
  let interval_objs ← intervals.mapM (fun d => Interval.make d.chromosome d.start d.«end»)
  pure (interval_objs, organismToEnum organism, convertOutputTypes output_types,
        ontology_terms, max_workers)

/-- Body of `predict_intervals` inside its `try`. -/
def predict_intervalsBody (self : AlphaGenomeClient) (intervals : List IntervalDict)
    (organism : String) (output_types ontology_terms : Option (List String))
    (max_workers : Int) : Except Exc Val := do
  let (interval_objs, organism_enum, requested_outputs, terms, workers) ←
    predict_intervalsRequest intervals organism output_types ontology_terms max_workers
  let results ← self.client.predict_intervals interval_objs organism_enum requested_outputs terms workers
  pure (.dict [("success", .bool true),
               ("results", .list (results.map _serialize_output)),
               ("interval_count", .int intervals.length)])

/-- The method `predict_intervals`. -/
def predict_intervals (self : AlphaGenomeClient) (intervals : List IntervalDict)
    (organism : String)
    (output_types : Option (List String))
    (ontology_terms : Option (List String))
    (max_workers : Int) : Val :=
  tryWrap (predict_intervalsBody self intervals organism output_types ontology_terms max_workers)

/-- Argument construction of `predict_variants` up to the client call. -/
def predict_variantsRequest (variants : List VariantDict) (interval : IntervalDict)
    (organism : String) (output_types ontology_terms : Option (List String)) (max_workers : Int) :
    Except Exc (Interval × List Variant × Organism × Option (List OutputType) × Option (List String) × Int) := do
  let interval_obj ← Interval.make interval.chromosome interval.start interval.«end»
  let variant_objs := variants.map (fun v => Variant.make v.chromosome v.position v.ref v.alt)
  pure (interval_obj, variant_objs, organismToEnum organism, convertOutputTypes output_types,
        ontology_terms, max_workers)

/-- Body of `predict_variants` inside its `try`. -/
def predict_variantsBody (self : AlphaGenomeClient) (variants : List VariantDict)
    (interval : IntervalDict) (organism : String)
    (output_types ontology_terms : Option (List String)) (max_workers : Int) : Except Exc Val := do
  let (interval_obj, variant_objs, organism_enum, requested_outputs, terms, workers) ←
    predict_variantsRequest variants interval organism output_types ontology_terms max_workers
  let results ← self.client.predict_variants interval_obj variant_objs organism_enum
    requested_outputs terms workers
  pure (.dict [("success", .bool true),
               ("results", .list (results.map _serialize_variant_output)),
               ("variant_count", .int variants.length),
               ("interval", .str (fmtInterval interval.chromosome interval.start interval.«end»))])

/-- The method `predict_variants`. -/
def predict_variants (self : AlphaGenomeClient) (variants : List VariantDict)
    (interval : IntervalDict) (organism : String)
    (output_types : Option (List String))
    (ontology_terms : Option (List String))
    (max_workers : Int) : Val :=
  tryWrap (predict_variantsBody self variants interval organism output_types ontology_terms max_workers)

/-- Argument construction of `score_variants` up to the client call. -/
def score_variantsRequest (variants : List VariantDict) (interval : IntervalDict)
    (organism : String) (max_workers : Int) :
    Except Exc (Interval × List Variant × Organism × Int) := do
  let interval_obj ← Interval.make interval.chromosome interval.start interval.«end»
  let variant_objs := variants.map (fun v => Variant.make v.chromosome v.position v.ref v.alt)
  pure (interval_obj, variant_objs, organismToEnum organism, max_workers)

/-- Body of `score_variants` inside its `try`. -/
def score_variantsBody (self : AlphaGenomeClient) (variants : List VariantDict)
    (interval : IntervalDict) (organism : String) (max_workers : Int) : Except Exc Val := do
  let (interval_obj, variant_objs, organism_enum, workers) ←
    score_variantsRequest variants interval organism max_workers
  let results ← self.client.score_variants interval_obj variant_objs organism_enum workers
  pure (.dict [("success", .bool true),
               ("results", .list (results.map _serialize_scores)),
               ("variant_count", .int variants.length),
               ("interval", .str (fmtInterval interval.chromosome interval.start interval.«end»))])

/-- The method `score_variants`. -/
def score_variants (self : AlphaGenomeClient) (variants : List VariantDict)
    (interval : IntervalDict) (organism : String) (max_workers : Int) : Val :=
  tryWrap (score_variantsBody self variants interval organism max_workers)

/-- Argument construction of `score_interval` up to the client call; the
`interval_scorers` argument is the literal empty list. -/
def score_intervalRequest (chromosome : String) (start «end» : Int) (organism : String) :
    Except Exc (Interval × List IntervalScorer × Organism) := do
  let interval ← Interval.make chromosome start «end»
  pure (interval, [], organismToEnum organism)

/-- Body of `score_interval` inside its `try`. -/
def score_intervalBody (self : AlphaGenomeClient) (chromosome : String) (start «end» : Int)
    (organism : String) : Except Exc Val := do
  let (interval, interval_scorers, organism_enum) ←
    score_intervalRequest chromosome start «end» organism
  let results ← self.client.score_interval interval interval_scorers organism_enum
  pure (.dict [("success", .bool true),
               ("results", _serialize_scores results),
               ("interval", .str (fmtInterval chromosome start «end»))])

/-- The method `score_interval`. -/
def score_interval (self : AlphaGenomeClient) (chromosome : String) (start «end» : Int)
    (organism : String) : Val :=
  tryWrap (score_intervalBody self chromosome start «end» organism)

/-- Argument construction of `score_intervals` up to the client call. -/
def score_intervalsRequest (intervals : List IntervalDict) (organism : String)
    (max_workers : Int) :
    Except Exc (List Interval × List IntervalScorer × Organism × Int) := do
  let interval_objs ← intervals.mapM (fun d => Interval.make d.chromosome d.start d.«end»)
  pure (interval_objs, [], organismToEnum organism, max_workers)

/-- Body of `score_intervals` inside its `try`. -/
def score_intervalsBody (self : AlphaGenomeClient) (intervals : List IntervalDict)
    (organism : String) (max_workers : Int) : Except Exc Val := do
  let (interval_objs, interval_scorers, organism_enum, workers) ←
    score_intervalsRequest intervals organism max_workers
  let results ← self.client.score_intervals interval_objs interval_scorers organism_enum workers
  pure (.dict [("success", .bool true),
               ("results", .list (results.map _serialize_scores)),
               ("interval_count", .int intervals.length)])

/-- The method `score_intervals`. -/
def score_intervals (self : AlphaGenomeClient) (intervals : List IntervalDict)
    (organism : String) (max_workers : Int) : Val :=
  tryWrap (score_intervalsBody self intervals organism max_workers)

/-- Argument construction of `score_ism_variants` up to the client call. -/
def score_ism_variantsRequest (chromosome : String) (start «end» : Int)
    (ism_chromosome : String) (ism_start ism_end : Int) (organism : String)
    (max_workers : Int) : Except Exc (Interval × Interval × Organism × Int) := do
  let interval ← Interval.make chromosome start «end»
  let ism_interval ← Interval.make ism_chromosome ism_start ism_end
  pure (interval, ism_interval, organismToEnum organism, max_workers)

/-- Body of `score_ism_variants` inside its `try`. -/
def score_ism_variantsBody (self : AlphaGenomeClient) (chromosome : String) (start «end» : Int)
    (ism_chromosome : String) (ism_start ism_end : Int) (organism : String)
    (max_workers : Int) : Except Exc Val := do
  let (interval, ism_interval, organism_enum, workers) ←
    score_ism_variantsRequest chromosome start «end» ism_chromosome ism_start ism_end organism max_workers
  let results ← self.client.score_ism_variants interval ism_interval organism_enum workers
  pure (.dict [("success", .bool true),
               ("results", .list (results.map _serialize_scores)),
               ("interval", .str (fmtInterval chromosome start «end»)),
               ("ism_interval", .str (fmtInterval ism_chromosome ism_start ism_end))])

/-- The method `score_ism_variants`. -/
def score_ism_variants (self : AlphaGenomeClient) (chromosome : String) (start «end» : Int)
    (ism_chromosome : String) (ism_start ism_end : Int)
    (organism : String) (max_workers : Int) : Val :=
  tryWrap (score_ism_variantsBody self chromosome start «end» ism_chromosome ism_start ism_end
    organism max_workers)

end AlphaGenomeClient

/-- First-occurrence deduplication, the deterministic model used for the
iteration order of the Python `set` objects the validators build. -/
def dedupFirstGo : List Char → List Char → List Char
  | [], _ => []
  | c :: cs, seen => if seen.contains c then dedupFirstGo cs seen else c :: dedupFirstGo cs (c :: seen)

/-- Deduplicate a character list keeping first occurrences. -/
def dedupFirst (l : List Char) : List Char := dedupFirstGo l []

/-- The set difference `set(s) - set(alphabet)` of the validators, as a
deduplicated character list. -/
def setDiffChars (s : String) (alphabet : List Char) : List Char :=
  dedupFirst (s.data.filter (fun c => alphabet.contains c = false))

/-- Python repr of a set of single-character strings, used in the
invalid-characters message of the sequence validator. -/
def reprCharSet (cs : List Char) : String :=
  "\x7b" ++ String.intercalate ", " (cs.map (fun c => "\x27" ++ c.toString ++ "\x27")) ++ "\x7d"

/-- Python repr of a list of integers, used in the sequence-length warning. -/
def reprIntList (xs : List Int) : String :=
  "[" ++ String.intercalate ", " (xs.map toString) ++ "]"

/-- Round half to even, the rounding of Python `round`. -/
def roundHalfEven (q : ℚ) : Int :=
  let f := Int.floor q
  let r := q - f
  if r < 1 / 2 then f
  else if 1 / 2 < r then f + 1
  else if f % 2 = 0 then f else f + 1

/-- Python `round(x, 2)` on the exact-rational model of floats. -/
def round2 (q : ℚ) : ℚ := (roundHalfEven (q * 100) : ℚ) / 100

/-- Python `min(xs, key=lambda x: abs(x - target))`: the first element at
minimal absolute distance. -/
def pyMinByAbsDist (xs : List Int) (target : Int) : Int :=
  match xs with
  | [] => 0
  | x :: rest => rest.foldl (fun best y => if (y - target).natAbs < (best - target).natAbs then y else best) x

/-- Python `len()` and indexing demand a list; anything else raises
`TypeError`. -/
def asValList (v : Val) : Except Exc (List Val) :=
  match v with
  | .list l => .ok l
  | _ => .error ⟨"TypeError", "object has no len()"⟩

/-- The `data` dictionary of `validate_genomic_data`, typed with the keys the
three validation branches read via `data.get`. -/
structure DataDict where
  sequence : Option String
  chromosome : Option String
  start : Option Int
  «end» : Option Int
  position : Option Int
  ref : Option String
  alt : Option String
deriving Repr, DecidableEq

namespace AlphaGenomeClient

/-- The manual-parsing result dictionary shared by the dash and colon
branches of `parse_variant_string`. -/
def parsedVariantDict (chromosome : String) (position : Int) (ref alt : String)
    (variant_string variant_format : String) : Val :=
  .dict [("success", .bool true),
         ("result", .dict [("chromosome", .str chromosome),
                           ("position", .int position),
                           ("reference_bases", .str ref),
                           ("alternate_bases", .str alt),
                           ("name", .str variant_string),
                           ("parsed_format", .str variant_format)]),
         ("original_string", .str variant_string)]

/-- The fallback of `parse_variant_string`: map the format name and delegate
to the external `Variant.from_str`. -/
def parse_variant_string_fb (w : ExtWorld) (variant_string variant_format : String) :
    Except Exc Val := do
  let format_enum := formatFromName (pyLower variant_format)
  let variant ← w.variant_from_str variant_string format_enum
  pure (.dict [("success", .bool true),
               ("result", .dict [("chromosome", .str variant.chromosome),
                                 ("position", .int variant.position),
                                 ("reference_bases", .str variant.reference_bases),
                                 ("alternate_bases", .str variant.alternate_bases),
                                 ("name", .str variant.name),
                                 ("parsed_format", .str variant_format)]),
               ("original_string", .str variant_string)])

/-- Body of `parse_variant_string` inside its `try`: the dash branch, the
colon branch, and otherwise the external parser.  A dash string that does not
split into exactly four parts also falls through to the external parser. -/
def parse_variant_stringBody (w : ExtWorld) (self : AlphaGenomeClient)
    (variant_string variant_format : String) : Except Exc Val := do
  if pyInStr '-' variant_string then
    match pySplit '-' variant_string with
    | [chromosome, position, ref, alt] => do
      let posInt ← pyInt position
      pure (parsedVariantDict chromosome posInt ref alt variant_string variant_format)
    | _ => parse_variant_string_fb w variant_string variant_format
  else if pyInStr ':' variant_string then
    match pySplit ':' variant_string with
    | [chromosome, position, ref, alt] => do
      let posInt ← pyInt position
      pure (parsedVariantDict chromosome posInt ref alt variant_string variant_format)
    | _ => parse_variant_string_fb w variant_string variant_format
  else
    parse_variant_string_fb w variant_string variant_format

/-- The method `parse_variant_string`. -/
def parse_variant_string (w : ExtWorld) (self : AlphaGenomeClient)
    (variant_string variant_format : String) : Val :=
  tryWrap (parse_variant_stringBody w self variant_string variant_format)

/-- The error list of the `interval` branch of `validate_genomic_data`:
missing chromosome, missing coordinates, inverted coordinates
(`start >= end`), and non-positive start, appended in source order (the
coordinate checks are an `if`/`elif`/`elif` chain). -/
def intervalErrors (data : DataDict) : List String :=
  (if data.chromosome.getD "" = "" then ["Chromosome is required"] else []) ++
  (match data.start, data.«end» with
   | some s, some e =>
     if s ≥ e then ["End position must be greater than start position"]
     else if s < 1 then ["Start position must be positive"]
     else []
   | _, _ => ["Start and end positions are required"])

/-- The `(valid, warnings, errors)` triple `validate_genomic_data` builds:
each branch appends its error strings in source order, and `valid` is exactly
the absence of errors (every append is paired with `valid = False`). -/
def validationTriple (data_type : String) (data : DataDict) : Bool × List String × List String :=
  if data_type = "sequence" then
    let sequence := data.sequence.getD ""
    if sequence = "" then (false, [], ["Sequence is empty"])
    else
      let invalid_chars := setDiffChars (pyUpper sequence) dnaCharsN
      let errors := if invalid_chars.isEmpty then []
        else ["Invalid characters found: " ++ reprCharSet invalid_chars]
      let warnings := if supportedLengths.contains (sequence.length : Int) then []
        else ["Sequence length " ++ toString sequence.length ++ " not in supported lengths: " ++
              reprIntList supportedLengths]
      (errors.isEmpty, warnings, errors)
  else if data_type = "interval" then
    let errors := intervalErrors data
    (errors.isEmpty, [], errors)
  else if data_type = "variant" then
    let chromosome := data.chromosome.getD ""
    let ref := data.ref.getD ""
    let alt := data.alt.getD ""
    let errsChrom := if chromosome = "" then ["Chromosome is required"] else []
    let errsPos :=
      match data.position with
      | Option.none => ["Position must be a positive integer"]
      | some p => if p < 1 then ["Position must be a positive integer"] else []
    let errsAlleles :=
      if ref = "" ∨ alt = "" then ["Reference and alternate alleles are required"]
      else
        (if allInAlphabet (pyUpper ref) dnaChars4 then []
         else ["Reference allele contains invalid characters"]) ++
        (if allInAlphabet (pyUpper alt) dnaChars4 then []
         else ["Alternate allele contains invalid characters"])
    let errors := errsChrom ++ errsPos ++ errsAlleles
    (errors.isEmpty, [], errors)
  else
    (true, [], [])

/-- Body of `validate_genomic_data` inside its `try`. -/
def validate_genomic_dataBody (self : AlphaGenomeClient) (data_type : String)
    (data : DataDict) : Except Exc Val := do
  let vr := validationTriple data_type data
  pure (.dict [("success", .bool true),
               ("result", .dict [("valid", .bool vr.1),
                                 ("warnings", .list (vr.2.1.map Val.str)),
                                 ("errors", .list (vr.2.2.map Val.str))]),
               ("data_type", .str data_type)])

/-- The method `validate_genomic_data`. -/
def validate_genomic_data (self : AlphaGenomeClient) (data_type : String)
    (data : DataDict) : Val :=
  tryWrap (validate_genomic_dataBody self data_type data)

/-- Body of `get_supported_outputs` inside its `try`: static dictionaries. -/
def get_supported_outputsBody (self : AlphaGenomeClient) : Except Exc Val := do
  pure (.dict [("success", .bool true),
    ("result", .dict [
      ("output_types", .dict [
        ("ATAC", .str "ATAC-seq chromatin accessibility data"),
        ("CAGE", .str "CAGE transcription start site data"),
        ("CHIP_HISTONE", .str "ChIP-seq histone modification data"),
        ("CHIP_TF", .str "ChIP-seq transcription factor binding data"),
        ("CONTACT_MAPS", .str "3D chromatin contact maps"),
        ("DNASE", .str "DNase hypersensitivity data"),
        ("PROCAP", .str "PRO-cap nascent transcription data"),
        ("RNA_SEQ", .str "RNA-seq gene expression data"),
        ("SPLICE_JUNCTIONS", .str "Splice junction predictions"),
        ("SPLICE_SITES", .str "Splice site predictions"),
        ("SPLICE_SITE_USAGE", .str "Splice site usage predictions")]),
      ("supported_sequence_lengths", .dict [
        ("SEQUENCE_LENGTH_2KB", .int 2048),
        ("SEQUENCE_LENGTH_16KB", .int 16384),
        ("SEQUENCE_LENGTH_100KB", .int 131072),
        ("SEQUENCE_LENGTH_500KB", .int 524288),
        ("SEQUENCE_LENGTH_1MB", .int 1048576)]),
      ("max_ism_interval_width", .int 10),
      ("max_variant_scorers_per_request", .int 20),
      ("supported_organisms", .list [.str "human"]),
      ("variant_formats", .list [.str "default", .str "gnomad", .str "gtex",
                                 .str "open_targets", .str "open_targets_bigquery"])])])

/-- The method `get_supported_outputs`. -/
def get_supported_outputs (self : AlphaGenomeClient) : Val :=
  tryWrap (get_supported_outputsBody self)

/-- Body of `calculate_genomic_overlap` inside its `try`: construct the two
external intervals, test overlap, and when they overlap report the
intersection and the overlap statistics (lengths counted as
end minus start plus one). -/
def calculate_genomic_overlapBody (self : AlphaGenomeClient)
    (interval1 interval2 : IntervalDict) : Except Exc Val := do
  let int1 ← Interval.make interval1.chromosome interval1.start interval1.«end»
  let int2 ← Interval.make interval2.chromosome interval2.start interval2.«end»
  let overlaps := int1.overlaps int2
  let base : List (String × Val) :=
    [("overlaps", .bool overlaps),
     ("interval1", .str (fmtInterval interval1.chromosome interval1.start interval1.«end»)),
     ("interval2", .str (fmtInterval interval2.chromosome interval2.start interval2.«end»))]
  let result : Val :=
    if overlaps then
      match int1.intersect int2 with
      | some intersection =>
        let int1_length := int1.«end» - int1.start + 1
        let int2_length := int2.«end» - int2.start + 1
        let overlap_length := intersection.«end» - intersection.start + 1
        .dict (base ++
          [("intersection", .dict [
             ("chromosome", .str intersection.chromosome),
             ("start", .int intersection.start),
             ("end", .int intersection.«end»),
             ("length", .int (intersection.«end» - intersection.start + 1))]),
           ("overlap_stats", .dict [
             ("overlap_length", .int overlap_length),
             ("interval1_length", .int int1_length),
             ("interval2_length", .int int2_length),
             ("overlap_percentage_int1", .rat ((overlap_length : ℚ) / (int1_length : ℚ) * 100)),
             ("overlap_percentage_int2", .rat ((overlap_length : ℚ) / (int2_length : ℚ) * 100))])])
      | Option.none => .dict base
    else .dict base
  pure (.dict [("success", .bool true), ("result", result)])

/-- The method `calculate_genomic_overlap`. -/
def calculate_genomic_overlap (self : AlphaGenomeClient)
    (interval1 interval2 : IntervalDict) : Val :=
  tryWrap (calculate_genomic_overlapBody self interval1 interval2)

/-- Body of `get_sequence_info` inside its `try`: basic statistics of the
uppercased sequence; the GC-content division is guarded by
`known_bases > 0`. -/
def get_sequence_infoBody (self : AlphaGenomeClient) (sequence : String) : Except Exc Val := do
  let _ ← (if sequence = "" then throw ⟨"ValueError", "Sequence cannot be empty"⟩
           else pure () : Except Exc Unit)
  let sequenceU := pyUpper sequence
  let length : Int := sequenceU.length
  let countA : Int := sequenceU.data.count 'A'
  let countT : Int := sequenceU.data.count 'T'
  let countG : Int := sequenceU.data.count 'G'
  let countC : Int := sequenceU.data.count 'C'
  let countN : Int := sequenceU.data.count 'N'
  let gc_count := countG + countC
  let at_count := countA + countT
  let known_bases := gc_count + at_count
  let gc_content : ℚ := if known_bases > 0 then (gc_count : ℚ) / (known_bases : ℚ) * 100 else 0
  let is_supported_length := supportedLengths.contains length
  let closest_length := pyMinByAbsDist supportedLengths length
  let invalid_chars := setDiffChars sequenceU dnaCharsN
  let is_valid := invalid_chars.isEmpty
  pure (.dict [("success", .bool true),
    ("result", .dict [
      ("length", .int length),
      ("base_counts", .dict [("A", .int countA), ("T", .int countT), ("G", .int countG),
                             ("C", .int countC), ("N", .int countN)]),
      ("gc_content", .rat (round2 gc_content)),
      ("at_content", .rat (round2 (100 - gc_content))),
      ("n_content", .rat (round2 ((countN : ℚ) / (length : ℚ) * 100))),
      ("is_valid", .bool is_valid),
      ("invalid_characters", .list (invalid_chars.map (fun c => Val.str c.toString))),
      ("is_supported_length", .bool is_supported_length),
      ("closest_supported_length", .int closest_length),
      ("supported_lengths", .list (supportedLengths.map Val.int))])])

/-- The method `get_sequence_info`. -/
def get_sequence_info (self : AlphaGenomeClient) (sequence : String) : Val :=
  tryWrap (get_sequence_infoBody self sequence)

/-- Body of `analyze_gene_region` inside its `try`: a fixed not-implemented
response (gene lookup would need an external coordinate database). -/
def analyze_gene_regionBody (self : AlphaGenomeClient) (gene_symbol organism : String)
    (flanking_size : Int) (output_types : Option (List String)) : Except Exc Val := do
  pure (.dict [("success", .bool false),
    ("error", .str "Gene coordinate lookup requires integration with Ensembl/UCSC API. Please provide chromosome coordinates directly using predict_genomic_interval."),
    ("type", .str "NotImplementedError"),
    ("suggestion", .str "Use predict_genomic_interval with gene coordinates from Ensembl: https://rest.ensembl.org/")])

/-- The method `analyze_gene_region`. -/
def analyze_gene_region (self : AlphaGenomeClient) (gene_symbol organism : String)
    (flanking_size : Int) (output_types : Option (List String)) : Val :=
  tryWrap (analyze_gene_regionBody self gene_symbol organism flanking_size output_types)

/-- The short-circuit test `not result1["success"] or not result2["success"]`
of `compare_sequences`: the second subscript is evaluated only when the first
success flag is truthy. -/
def compareFailedCheck (result1 result2 : Val) : Except Exc Bool := do
  let s1 ← dictGetE result1 "success"
  if pyTruthy s1 then do
    let s2 ← dictGetE result2 "success"
    pure (!pyTruthy s2)
  else
    pure true

/-- Body of `compare_sequences` inside its `try`: predict both sequences
(with default ontology terms), short-circuit on a failed prediction, and
otherwise report both predictions with the length difference. -/
def compare_sequencesBody (self : AlphaGenomeClient) (sequence1 sequence2 organism : String)
    (output_types : Option (List String)) : Except Exc Val := do
  let result1 := predict_sequence self sequence1 organism output_types Option.none
  let result2 := predict_sequence self sequence2 organism output_types Option.none
  let failed ← compareFailedCheck result1 result2
  if failed then
    pure (.dict [("success", .bool false),
                 ("error", .str "Failed to predict one or both sequences"),
                 ("result1", result1),
                 ("result2", result2)])
  else do
    let predictions1 ← dictGetE result1 "result"
    let predictions2 ← dictGetE result2 "result"
    pure (.dict [("success", .bool true),
      ("result", .dict [
        ("sequence1", .dict [("length", .int sequence1.length), ("predictions", predictions1)]),
        ("sequence2", .dict [("length", .int sequence2.length), ("predictions", predictions2)]),
        ("comparison", .dict [
          ("length_difference", .int (((sequence1.length : Int) - (sequence2.length : Int)).natAbs)),
          ("note", .str "Detailed differential analysis requires post-processing of prediction outputs")])])])

/-- The method `compare_sequences`. -/
def compare_sequences (self : AlphaGenomeClient) (sequence1 sequence2 organism : String)
    (output_types : Option (List String)) : Val :=
  tryWrap (compare_sequencesBody self sequence1 sequence2 organism output_types)

/-- Body of `rank_variants_by_impact` inside its `try`: score the variants,
return the scoring failure unchanged, and otherwise pair each variant with
its score (index-guarded) without any actual reordering. -/
def rank_variants_by_impactBody (self : AlphaGenomeClient) (variants : List VariantDict)
    (interval : IntervalDict) (organism ranking_metric : String) (max_workers : Int) :
    Except Exc Val := do
  let score_result := score_variants self variants interval organism max_workers
  let s ← dictGetE score_result "success"
  if pyTruthy s = false then
    pure score_result
  else do
    let resultsVal ← dictGetE score_result "results"
    let results ← asValList resultsVal
    let ranked_variants := variants.enum.map (fun p =>
      Val.dict [("rank", .int (p.1 + 1)),
                ("variant", .str (fmtVariant p.2.chromosome p.2.position p.2.ref p.2.alt)),
                ("chromosome", .str p.2.chromosome),
                ("position", .int p.2.position),
                ("ref", .str p.2.ref),
                ("alt", .str p.2.alt),
                ("scores", results.getD p.1 Val.none),
                ("impact_category", .str "unknown")])
    pure (.dict [("success", .bool true),
      ("result", .dict [
        ("ranked_variants", .list ranked_variants),
        ("total_variants", .int variants.length),
        ("ranking_metric", .str ranking_metric),
        ("interval", .str (fmtInterval interval.chromosome interval.start interval.«end»)),
        ("note", .str "Variants are returned with scores. Detailed ranking requires score interpretation based on specific algorithms.")])])

/-- The method `rank_variants_by_impact`. -/
def rank_variants_by_impact (self : AlphaGenomeClient) (variants : List VariantDict)
    (interval : IntervalDict) (organism ranking_metric : String) (max_workers : Int) : Val :=
  tryWrap (rank_variants_by_impactBody self variants interval organism ranking_metric max_workers)

end AlphaGenomeClient

/-- The argparse `Namespace` of `main`: exactly the attributes the calls to
`add_argument` define (note that no `--variant-string`, `--variant-format`,
`--data-type`, `--data`, `--interval1` or `--interval2` argument is ever
declared), with the declared defaults. -/
structure Args where
  command : String
  api_key : String
  sequence : Option String
  chromosome : Option String
  start : Option Int
  «end» : Option Int
  position : Option Int
  ref : Option String
  alt : Option String
  interval_start : Option Int
  interval_end : Option Int
  organism : String
  output_types : Option (List String)
  ontology_terms : Option (List String)
  sequences : Option String
  intervals : Option String
  variants : Option String
  interval : Option String
  max_workers : Int
  ism_chromosome : Option String
  ism_start : Option Int
  ism_end : Option Int
  gene_symbol : Option String
  flanking_size : Int
  sequence1 : Option String
  sequence2 : Option String
  ranking_metric : String

/-- Truthiness of an optional string argument: `None` and the empty string
are falsy under Python `if not args.x`. -/
def optStrTruthy (o : Option String) : Bool := (o.getD "") ≠ ""

/-- String projection demanded where the dispatch passes a decoded JSON
value into a method parameter typed `str`. -/
def asStr : Val → Except Exc String
  | .str s => .ok s
  | _ => .error ⟨"TypeError", "expected a string"⟩

/-- Integer projection demanded where the dispatch passes a decoded JSON
value into a method parameter typed `int`. -/
def asInt : Val → Except Exc Int
  | .int n => .ok n
  | _ => .error ⟨"TypeError", "expected an integer"⟩

/-- Projection of a decoded JSON array of strings.  The Python code passes
the decoded object through untyped; the embedding performs at the call
boundary the projections the methods would perform on first use. -/
def asStrList (v : Val) : Except Exc (List String) := do
  let xs ← asValList v
  xs.mapM asStr

/-- Projection of a decoded JSON object to the three interval keys. -/
def asIntervalDict (v : Val) : Except Exc IntervalDict := do
  let chromosome ← asStr (← dictGetE v "chromosome")
  let start ← asInt (← dictGetE v "start")
  let e ← asInt (← dictGetE v "end")
  pure ⟨chromosome, start, e⟩

/-- Projection of a decoded JSON object to the four variant keys. -/
def asVariantDict (v : Val) : Except Exc VariantDict := do
  let chromosome ← asStr (← dictGetE v "chromosome")
  let position ← asInt (← dictGetE v "position")
  let ref ← asStr (← dictGetE v "ref")
  let alt ← asStr (← dictGetE v "alt")
  pure ⟨chromosome, position, ref, alt⟩

/-- Projection of a decoded JSON array of interval objects. -/
def asIntervalDictList (v : Val) : Except Exc (List IntervalDict) := do
  let xs ← asValList v
  xs.mapM asIntervalDict

/-- Projection of a decoded JSON array of variant objects. -/
def asVariantDictList (v : Val) : Except Exc (List VariantDict) := do
  let xs ← asValList v
  xs.mapM asVariantDict

/-- The `AttributeError` raised when the dispatch reads an attribute the
argument parser never defined on the `Namespace`. -/
def namespaceAttributeError (attr : String) : Exc :=
  ⟨"AttributeError", "\x27Namespace\x27 object has no attribute \x27" ++ attr ++ "\x27"⟩

/-- The command dispatch of `main` inside its `try`: each branch checks its
required arguments, calls the matching `AlphaGenomeClient` method and yields
the dictionary to print.  The `parse_variant_string`,
`validate_genomic_data` and `calculate_genomic_overlap` branches read
`args.variant_string`, `args.data_type` and `args.interval1`, attributes
that no `add_argument` call defines, so they raise `AttributeError` before
reaching the client. -/
def mainDispatch (w : ExtWorld) (client : AlphaGenomeClient) (args : Args) : Except Exc Val := do
  if args.command = "predict_sequence" then
    if optStrTruthy args.sequence = false then
      throw ⟨"ValueError", "--sequence is required for predict_sequence"⟩
    pure (client.predict_sequence (args.sequence.getD "") args.organism args.output_types args.ontology_terms)
  else if args.command = "predict_interval" then
    if optStrTruthy args.chromosome = false ∨ args.start = Option.none ∨ args.«end» = Option.none then
      throw ⟨"ValueError", "--chromosome, --start, and --end are required for predict_interval"⟩
    pure (client.predict_interval (args.chromosome.getD "") (args.start.getD 0) (args.«end».getD 0)
      args.organism args.output_types args.ontology_terms)
  else if args.command = "predict_variant" then
    if args.chromosome = Option.none ∨ args.position = Option.none ∨ args.ref = Option.none ∨
        args.alt = Option.none ∨ args.interval_start = Option.none ∨ args.interval_end = Option.none then
      throw ⟨"ValueError", "All variant and interval parameters are required for predict_variant"⟩
    pure (client.predict_variant (args.chromosome.getD "") (args.position.getD 0)
      (args.ref.getD "") (args.alt.getD "") (args.interval_start.getD 0) (args.interval_end.getD 0)
      args.organism args.output_types args.ontology_terms)
  else if args.command = "score_variant" then
    if args.chromosome = Option.none ∨ args.position = Option.none ∨ args.ref = Option.none ∨
        args.alt = Option.none ∨ args.interval_start = Option.none ∨ args.interval_end = Option.none then
      throw ⟨"ValueError", "All variant and interval parameters are required for score_variant"⟩
    pure (client.score_variant (args.chromosome.getD "") (args.position.getD 0)
      (args.ref.getD "") (args.alt.getD "") (args.interval_start.getD 0) (args.interval_end.getD 0)
      args.organism)
  else if args.command = "get_metadata" then
    pure (client.get_output_metadata args.organism)
  else if args.command = "predict_sequences" then
    if optStrTruthy args.sequences = false then
      throw ⟨"ValueError", "--sequences is required for predict_sequences"⟩
    let decoded ← w.json_loads (args.sequences.getD "")
    let sequences ← asStrList decoded
    pure (client.predict_sequences sequences args.organism args.output_types args.ontology_terms args.max_workers)
  else if args.command = "predict_intervals" then
    if optStrTruthy args.intervals = false then
      throw ⟨"ValueError", "--intervals is required for predict_intervals"⟩
    let decoded ← w.json_loads (args.intervals.getD "")
    let intervals ← asIntervalDictList decoded
    pure (client.predict_intervals intervals args.organism args.output_types args.ontology_terms args.max_workers)
  else if args.command = "predict_variants" then
    if optStrTruthy args.variants = false ∨ optStrTruthy args.interval = false then
      throw ⟨"ValueError", "--variants and --interval are required for predict_variants"⟩
    let decodedV ← w.json_loads (args.variants.getD "")
    let decodedI ← w.json_loads (args.interval.getD "")
    let variants ← asVariantDictList decodedV
    let interval ← asIntervalDict decodedI
    pure (client.predict_variants variants interval args.organism args.output_types args.ontology_terms args.max_workers)
  else if args.command = "score_variants" then
    if optStrTruthy args.variants = false ∨ optStrTruthy args.interval = false then
      throw ⟨"ValueError", "--variants and --interval are required for score_variants"⟩
    let decodedV ← w.json_loads (args.variants.getD "")
    let decodedI ← w.json_loads (args.interval.getD "")
    let variants ← asVariantDictList decodedV
    let interval ← asIntervalDict decodedI
    pure (client.score_variants variants interval args.organism args.max_workers)
  else if args.command = "score_interval" then
    if optStrTruthy args.chromosome = false ∨ args.start = Option.none ∨ args.«end» = Option.none then
      throw ⟨"ValueError", "--chromosome, --start, and --end are required for score_interval"⟩
    pure (client.score_interval (args.chromosome.getD "") (args.start.getD 0) (args.«end».getD 0) args.organism)
  else if args.command = "score_intervals" then
    if optStrTruthy args.intervals = false then
      throw ⟨"ValueError", "--intervals is required for score_intervals"⟩
    let decoded ← w.json_loads (args.intervals.getD "")
    let intervals ← asIntervalDictList decoded
    pure (client.score_intervals intervals args.organism args.max_workers)
  else if args.command = "score_ism_variants" then
    if optStrTruthy args.chromosome = false ∨ args.start = Option.none ∨ args.«end» = Option.none ∨
        optStrTruthy args.ism_chromosome = false ∨ args.ism_start = Option.none ∨ args.ism_end = Option.none then
      throw ⟨"ValueError", "All interval and ISM parameters are required for score_ism_variants"⟩
    pure (client.score_ism_variants (args.chromosome.getD "") (args.start.getD 0) (args.«end».getD 0)
      (args.ism_chromosome.getD "") (args.ism_start.getD 0) (args.ism_end.getD 0)
      args.organism args.max_workers)
  else if args.command = "parse_variant_string" then
    throw (namespaceAttributeError "variant_string")
  else if args.command = "validate_genomic_data" then
    throw (namespaceAttributeError "data_type")
  else if args.command = "get_supported_outputs" then
    pure (client.get_supported_outputs)
  else if args.command = "calculate_genomic_overlap" then
    throw (namespaceAttributeError "interval1")
  else if args.command = "get_sequence_info" then
    if optStrTruthy args.sequence = false then
      throw ⟨"ValueError", "--sequence is required for get_sequence_info"⟩
    pure (client.get_sequence_info (args.sequence.getD ""))
  else if args.command = "analyze_gene_region" then
    if optStrTruthy args.gene_symbol = false then
      throw ⟨"ValueError", "--gene-symbol is required for analyze_gene_region"⟩
    pure (client.analyze_gene_region (args.gene_symbol.getD "") args.organism args.flanking_size args.output_types)
  else if args.command = "compare_sequences" then
    if optStrTruthy args.sequence1 = false ∨ optStrTruthy args.sequence2 = false then
      throw ⟨"ValueError", "--sequence1 and --sequence2 are required for compare_sequences"⟩
    pure (client.compare_sequences (args.sequence1.getD "") (args.sequence2.getD "") args.organism args.output_types)
  else if args.command = "rank_variants_by_impact" then
    if optStrTruthy args.variants = false ∨ optStrTruthy args.interval = false then
      throw ⟨"ValueError", "--variants and --interval are required for rank_variants_by_impact"⟩
    let decodedV ← w.json_loads (args.variants.getD "")
    let decodedI ← w.json_loads (args.interval.getD "")
    let variants ← asVariantDictList decodedV
    let interval ← asIntervalDict decodedI
    pure (client.rank_variants_by_impact variants interval args.organism args.ranking_metric args.max_workers)
  else
    throw ⟨"ValueError", "Unknown command: " ++ args.command⟩

/-- The body of `main` after argument parsing: construct the client and
dispatch; the outer `try` prints the failure envelope and exits with status 1
when anything raises, otherwise prints the result and exits 0.  The returned
pair is the printed dictionary and the exit status. -/
def mainRun (w : ExtWorld) (args : Args) : Val × Nat :=
  match (do
    let client ← AlphaGenomeClient.init w args.api_key
    mainDispatch w client args : Except Exc Val) with
  | .ok v => (v, 0)
  | .error e => (errEnvelope e, 1)

/-- A prediction output with every probed attribute present, for concrete
runs. -/
def okExtOutput : ExtOutput := ⟨some (), some (), some (), some (), some ()⟩

/-- A variant prediction output with every probed attribute present. -/
def okExtVariantOutput : ExtVariantOutput := ⟨some (), some (), some ()⟩

/-- Output metadata with every probed attribute present. -/
def okExtMetadata : ExtMetadata := ⟨some (), some (), some (), some (), some ()⟩

/-- A client whose every remote call succeeds, for concrete runs. -/
def okClient : DnaClient where
  predict_sequence := fun _ _ _ _ => .ok okExtOutput
  predict_interval := fun _ _ _ _ => .ok okExtOutput
  predict_variant := fun _ _ _ _ _ => .ok okExtOutput
  score_variant := fun _ _ _ => .ok (.list [.none])
  output_metadata := fun _ => .ok okExtMetadata
  predict_sequences := fun s _ _ _ _ => .ok (s.map (fun _ => okExtOutput))
  predict_intervals := fun l _ _ _ _ => .ok (l.map (fun _ => okExtOutput))
  predict_variants := fun _ v _ _ _ _ => .ok (v.map (fun _ => okExtVariantOutput))
  score_variants := fun _ v _ _ => .ok (v.map (fun _ => Val.list [.none]))
  score_interval := fun _ _ _ => .ok (.list [.none])
  score_intervals := fun l _ _ _ => .ok (l.map (fun _ => Val.list [.none]))
  score_ism_variants := fun _ _ _ _ => .ok [.list [.none]]

/-- A client whose every remote call raises, for concrete runs. -/
def failClient : DnaClient where
  predict_sequence := fun _ _ _ _ => .error ⟨"ConnectionError", "service unreachable"⟩
  predict_interval := fun _ _ _ _ => .error ⟨"ConnectionError", "service unreachable"⟩
  predict_variant := fun _ _ _ _ _ => .error ⟨"ConnectionError", "service unreachable"⟩
  score_variant := fun _ _ _ => .error ⟨"ConnectionError", "service unreachable"⟩
  output_metadata := fun _ => .error ⟨"ConnectionError", "service unreachable"⟩
  predict_sequences := fun _ _ _ _ _ => .error ⟨"ConnectionError", "service unreachable"⟩
  predict_intervals := fun _ _ _ _ _ => .error ⟨"ConnectionError", "service unreachable"⟩
  predict_variants := fun _ _ _ _ _ _ => .error ⟨"ConnectionError", "service unreachable"⟩
  score_variants := fun _ _ _ _ => .error ⟨"ConnectionError", "service unreachable"⟩
  score_interval := fun _ _ _ => .error ⟨"ConnectionError", "service unreachable"⟩
  score_intervals := fun _ _ _ _ => .error ⟨"ConnectionError", "service unreachable"⟩
  score_ism_variants := fun _ _ _ _ => .error ⟨"ConnectionError", "service unreachable"⟩

/-- A wrapper holding the always-succeeding client. -/
def okSelf : AlphaGenomeClient := ⟨okClient⟩

/-- A wrapper holding the always-raising client. -/
def failSelf : AlphaGenomeClient := ⟨failClient⟩

/-- A concrete external world for concrete runs: `create` succeeds,
`Variant.from_str` rejects its input, `json.loads` rejects its input. -/
def testWorld : ExtWorld where
  create := fun _ => .ok okClient
  variant_from_str := fun _ _ => .error ⟨"ValueError", "could not parse variant"⟩
  json_loads := fun _ => .error ⟨"ValueError", "invalid json"⟩

/-- Arguments as parsed with only the command and the required API key,
every other argument left at its declared default. -/
def baseArgs (command : String) : Args where
  command := command
  api_key := "test-key"
  sequence := Option.none
  chromosome := Option.none
  start := Option.none
  «end» := Option.none
  position := Option.none
  ref := Option.none
  alt := Option.none
  interval_start := Option.none
  interval_end := Option.none
  organism := "human"
  output_types := Option.none
  ontology_terms := Option.none
  sequences := Option.none
  intervals := Option.none
  variants := Option.none
  interval := Option.none
  max_workers := 5
  ism_chromosome := Option.none
  ism_start := Option.none
  ism_end := Option.none
  gene_symbol := Option.none
  flanking_size := 10000
  sequence1 := Option.none
  sequence2 := Option.none
  ranking_metric := "composite"

/-- A value is a dictionary carrying a boolean `success` entry. -/
def HasSuccessBool (v : Val) : Prop :=
  ∃ bb, dictLookup v "success" = some (.bool bb)

/-- Every successful return of the computation is a dictionary carrying a
boolean `success` entry. -/
def OkShapes (b : Except Exc Val) : Prop :=
  ∀ v, b = .ok v → HasSuccessBool v

theorem okShapes_bind {α : Type} (e : Except Exc α) (f : α → Except Exc Val)
    (h : ∀ a, OkShapes (f a)) : OkShapes (e >>= f) := by
  intro v hv
  cases e with
  | error ex => simp [Bind.bind, Except.bind] at hv
  | ok a => exact h a v (by simpa [Bind.bind, Except.bind] using hv)

theorem okShapes_pure_dict (bb : Bool) (l : List (String × Val)) :
    OkShapes (pure (Val.dict (("success", Val.bool bb) :: l))) := by
  intro v hv
  have h : Val.dict (("success", Val.bool bb) :: l) = v := by
    simpa [pure, Except.pure] using hv
  exact ⟨bb, by simp [← h, dictLookup, assocLookup]⟩

theorem okShapes_pure_of (v : Val) (h : HasSuccessBool v) : OkShapes (pure v) := by
  intro v2 hv
  have h2 : v = v2 := by simpa [pure, Except.pure] using hv
  exact h2 ▸ h

theorem okShapes_throw (ex : Exc) : OkShapes (throw ex) := by
  intro v hv
  simp [throw, throwThe, MonadExceptOf.throw] at hv

theorem okShapes_error (ex : Exc) : OkShapes (Except.error ex) := by
  intro v hv
  simp at hv

theorem okShapes_ite (c : Prop) [Decidable c] (a b : Except Exc Val)
    (ha : OkShapes a) (hb : OkShapes b) : OkShapes (if c then a else b) := by
  by_cases h : c
  · simpa [h] using ha
  · simpa [h] using hb

theorem hasSuccess_tryWrap (b : Except Exc Val) (h : OkShapes b) :
    HasSuccessBool (tryWrap b) := by
  cases hb : b with
  | ok v =>
    have hs := h v hb
    simpa [tryWrap, hb] using hs
  | error e =>
    exact ⟨false, by simp [tryWrap, hb, errEnvelope, dictLookup, assocLookup]⟩

theorem okShapes_predict_sequenceBody (self : AlphaGenomeClient) (sequence organism : String)
    (ot onto : Option (List String)) :
    OkShapes (AlphaGenomeClient.predict_sequenceBody self sequence organism ot onto) := by
  unfold AlphaGenomeClient.predict_sequenceBody
  apply okShapes_bind
  intro a
  obtain ⟨s, o, r, t⟩ := a
  apply okShapes_bind
  intro _
  exact okShapes_pure_dict true _


theorem okShapes_predict_intervalBody (self : AlphaGenomeClient) (chromosome : String) (start e2 : Int)
    (organism : String) (ot onto : Option (List String)) :
    OkShapes (AlphaGenomeClient.predict_intervalBody self chromosome start e2 organism ot onto) := by
  unfold AlphaGenomeClient.predict_intervalBody
  apply okShapes_bind
  intro a
  obtain ⟨a0, a1, a2, a3⟩ := a
  apply okShapes_bind
  intro _
  exact okShapes_pure_dict true _

theorem okShapes_predict_variantBody (self : AlphaGenomeClient) (chromosome : String) (position : Int)
    (ref alt : String) (istart iend : Int) (organism : String) (ot onto : Option (List String)) :
    OkShapes (AlphaGenomeClient.predict_variantBody self chromosome position ref alt istart iend organism ot onto) := by
  unfold AlphaGenomeClient.predict_variantBody
  apply okShapes_bind
  intro a
  obtain ⟨a0, a1, a2, a3, a4⟩ := a
  apply okShapes_bind
  intro _
  exact okShapes_pure_dict true _

theorem okShapes_score_variantBody (self : AlphaGenomeClient) (chromosome : String) (position : Int)
    (ref alt : String) (istart iend : Int) (organism : String) :
    OkShapes (AlphaGenomeClient.score_variantBody self chromosome position ref alt istart iend organism) := by
  unfold AlphaGenomeClient.score_variantBody
  apply okShapes_bind
  intro a
  obtain ⟨a0, a1, a2⟩ := a
  apply okShapes_bind
  intro _
  exact okShapes_pure_dict true _

theorem okShapes_get_output_metadataBody (self : AlphaGenomeClient) (organism : String) :
    OkShapes (AlphaGenomeClient.get_output_metadataBody self organism) := by
  unfold AlphaGenomeClient.get_output_metadataBody
  apply okShapes_bind
  intro a
  apply okShapes_bind
  intro _
  exact okShapes_pure_dict true _

theorem okShapes_predict_sequencesBody (self : AlphaGenomeClient) (sequences : List String)
    (organism : String) (ot onto : Option (List String)) (mw : Int) :
    OkShapes (AlphaGenomeClient.predict_sequencesBody self sequences organism ot onto mw) := by
  unfold AlphaGenomeClient.predict_sequencesBody
  apply okShapes_bind
  intro a
  obtain ⟨a0, a1, a2, a3, a4⟩ := a
  apply okShapes_bind
  intro _
  exact okShapes_pure_dict true _

theorem okShapes_predict_intervalsBody (self : AlphaGenomeClient) (intervals : List IntervalDict)
    (organism : String) (ot onto : Option (List String)) (mw : Int) :
    OkShapes (AlphaGenomeClient.predict_intervalsBody self intervals organism ot onto mw) := by
  unfold AlphaGenomeClient.predict_intervalsBody
  apply okShapes_bind
  intro a
  obtain ⟨a0, a1, a2, a3, a4⟩ := a
  apply okShapes_bind
  intro _
  exact okShapes_pure_dict true _

theorem okShapes_predict_variantsBody (self : AlphaGenomeClient) (variants : List VariantDict)
    (interval : IntervalDict) (organism : String) (ot onto : Option (List String)) (mw : Int) :
    OkShapes (AlphaGenomeClient.predict_variantsBody self variants interval organism ot onto mw) := by
  unfold AlphaGenomeClient.predict_variantsBody
  apply okShapes_bind
  intro a
  obtain ⟨a0, a1, a2, a3, a4, a5⟩ := a
  apply okShapes_bind
  intro _
  exact okShapes_pure_dict true _

theorem okShapes_score_variantsBody (self : AlphaGenomeClient) (variants : List VariantDict)
    (interval : IntervalDict) (organism : String) (mw : Int) :
    OkShapes (AlphaGenomeClient.score_variantsBody self variants interval organism mw) := by
  unfold AlphaGenomeClient.score_variantsBody
  apply okShapes_bind
  intro a
  obtain ⟨a0, a1, a2, a3⟩ := a
  apply okShapes_bind
  intro _
  exact okShapes_pure_dict true _

theorem okShapes_score_intervalBody (self : AlphaGenomeClient) (chromosome : String) (start e2 : Int)
    (organism : String) :
    OkShapes (AlphaGenomeClient.score_intervalBody self chromosome start e2 organism) := by
  unfold AlphaGenomeClient.score_intervalBody
  apply okShapes_bind
  intro a
  obtain ⟨a0, a1, a2⟩ := a
  apply okShapes_bind
  intro _
  exact okShapes_pure_dict true _

theorem okShapes_score_intervalsBody (self : AlphaGenomeClient) (intervals : List IntervalDict)
    (organism : String) (mw : Int) :
    OkShapes (AlphaGenomeClient.score_intervalsBody self intervals organism mw) := by
  unfold AlphaGenomeClient.score_intervalsBody
  apply okShapes_bind
  intro a
  obtain ⟨a0, a1, a2, a3⟩ := a
  apply okShapes_bind
  intro _
  exact okShapes_pure_dict true _

theorem okShapes_score_ism_variantsBody (self : AlphaGenomeClient) (chromosome : String) (start e2 : Int)
    (ismc : String) (isms isme : Int) (organism : String) (mw : Int) :
    OkShapes (AlphaGenomeClient.score_ism_variantsBody self chromosome start e2 ismc isms isme organism mw) := by
  unfold AlphaGenomeClient.score_ism_variantsBody
  apply okShapes_bind
  intro a
  obtain ⟨a0, a1, a2, a3⟩ := a
  apply okShapes_bind
  intro _
  exact okShapes_pure_dict true _

theorem okShapes_parse_variant_string_fb (w : ExtWorld) (variant_string variant_format : String) :
    OkShapes (AlphaGenomeClient.parse_variant_string_fb w variant_string variant_format) := by
  unfold AlphaGenomeClient.parse_variant_string_fb
  apply okShapes_bind
  intro _
  exact okShapes_pure_dict true _

theorem hasSuccess_parsedVariantDict (chromosome : String) (position : Int) (ref alt vs vf : String) :
    HasSuccessBool (AlphaGenomeClient.parsedVariantDict chromosome position ref alt vs vf) :=
  ⟨true, by simp [AlphaGenomeClient.parsedVariantDict, dictLookup, assocLookup]⟩

theorem okShapes_parse_variant_stringBody (w : ExtWorld) (self : AlphaGenomeClient)
    (variant_string variant_format : String) :
    OkShapes (AlphaGenomeClient.parse_variant_stringBody w self variant_string variant_format) := by
  unfold AlphaGenomeClient.parse_variant_stringBody
  apply okShapes_ite
  · rcases pySplit '-' variant_string with _ | ⟨c1, _ | ⟨c2, _ | ⟨c3, _ | ⟨c4, _ | ⟨c5, rest⟩⟩⟩⟩⟩
    case nil => exact okShapes_parse_variant_string_fb w variant_string variant_format
    case cons.nil => exact okShapes_parse_variant_string_fb w variant_string variant_format
    case cons.cons.nil => exact okShapes_parse_variant_string_fb w variant_string variant_format
    case cons.cons.cons.nil => exact okShapes_parse_variant_string_fb w variant_string variant_format
    case cons.cons.cons.cons.nil =>
      apply okShapes_bind
      intro n
      exact okShapes_pure_of _ (hasSuccess_parsedVariantDict _ _ _ _ _ _)
    case cons.cons.cons.cons.cons =>
      exact okShapes_parse_variant_string_fb w variant_string variant_format
  · apply okShapes_ite
    · rcases pySplit ':' variant_string with _ | ⟨c1, _ | ⟨c2, _ | ⟨c3, _ | ⟨c4, _ | ⟨c5, rest⟩⟩⟩⟩⟩
      case nil => exact okShapes_parse_variant_string_fb w variant_string variant_format
      case cons.nil => exact okShapes_parse_variant_string_fb w variant_string variant_format
      case cons.cons.nil => exact okShapes_parse_variant_string_fb w variant_string variant_format
      case cons.cons.cons.nil => exact okShapes_parse_variant_string_fb w variant_string variant_format
      case cons.cons.cons.cons.nil =>
        apply okShapes_bind
        intro n
        exact okShapes_pure_of _ (hasSuccess_parsedVariantDict _ _ _ _ _ _)
      case cons.cons.cons.cons.cons =>
        exact okShapes_parse_variant_string_fb w variant_string variant_format
    · exact okShapes_parse_variant_string_fb w variant_string variant_format

theorem okShapes_validate_genomic_dataBody (self : AlphaGenomeClient) (data_type : String)
    (data : DataDict) :
    OkShapes (AlphaGenomeClient.validate_genomic_dataBody self data_type data) := by
  unfold AlphaGenomeClient.validate_genomic_dataBody
  exact okShapes_pure_dict true _

theorem okShapes_get_supported_outputsBody (self : AlphaGenomeClient) :
    OkShapes (AlphaGenomeClient.get_supported_outputsBody self) := by
  unfold AlphaGenomeClient.get_supported_outputsBody
  exact okShapes_pure_dict true _

theorem okShapes_calculate_genomic_overlapBody (self : AlphaGenomeClient)
    (interval1 interval2 : IntervalDict) :
    OkShapes (AlphaGenomeClient.calculate_genomic_overlapBody self interval1 interval2) := by
  unfold AlphaGenomeClient.calculate_genomic_overlapBody
  apply okShapes_bind
  intro int1
  apply okShapes_bind
  intro int2
  exact okShapes_pure_dict true _

theorem okShapes_get_sequence_infoBody (self : AlphaGenomeClient) (sequence : String) :
    OkShapes (AlphaGenomeClient.get_sequence_infoBody self sequence) := by
  unfold AlphaGenomeClient.get_sequence_infoBody
  apply okShapes_bind
  intro _
  exact okShapes_pure_dict true _

theorem okShapes_analyze_gene_regionBody (self : AlphaGenomeClient) (gene_symbol organism : String)
    (flanking_size : Int) (ot : Option (List String)) :
    OkShapes (AlphaGenomeClient.analyze_gene_regionBody self gene_symbol organism flanking_size ot) := by
  unfold AlphaGenomeClient.analyze_gene_regionBody
  exact okShapes_pure_dict false _

theorem okShapes_compare_sequencesBody (self : AlphaGenomeClient) (sequence1 sequence2 organism : String)
    (ot : Option (List String)) :
    OkShapes (AlphaGenomeClient.compare_sequencesBody self sequence1 sequence2 organism ot) := by
  unfold AlphaGenomeClient.compare_sequencesBody
  apply okShapes_bind
  intro failed
  apply okShapes_ite
  · exact okShapes_pure_dict false _
  · apply okShapes_bind
    intro p1
    apply okShapes_bind
    intro p2
    exact okShapes_pure_dict true _

theorem score_variants_hasSuccess (self : AlphaGenomeClient) (variants : List VariantDict)
    (interval : IntervalDict) (organism : String) (mw : Int) :
    HasSuccessBool (AlphaGenomeClient.score_variants self variants interval organism mw) :=
  hasSuccess_tryWrap _ (okShapes_score_variantsBody self variants interval organism mw)

theorem okShapes_rank_variants_by_impactBody (self : AlphaGenomeClient) (variants : List VariantDict)
    (interval : IntervalDict) (organism ranking_metric : String) (mw : Int) :
    OkShapes (AlphaGenomeClient.rank_variants_by_impactBody self variants interval organism ranking_metric mw) := by
  unfold AlphaGenomeClient.rank_variants_by_impactBody
  apply okShapes_bind
  intro s
  apply okShapes_ite
  · exact okShapes_pure_of _ (score_variants_hasSuccess self variants interval organism mw)
  · apply okShapes_bind
    intro resultsVal
    apply okShapes_bind
    intro results
    exact okShapes_pure_dict true _

/-- C1: every public operation of `AlphaGenomeClient` returns a dictionary
containing a boolean `success` key, and whenever an exception is raised
inside the operation it does not propagate: the operation returns the
uniform envelope of success false, the exception message string and the
exception class name. -/
theorem C1_uniform_success_envelope :
  (∀ (self : AlphaGenomeClient) (sequence organism : String) (ot onto : Option (List String)),
    HasSuccessBool (AlphaGenomeClient.predict_sequence self sequence organism ot onto) ∧
    ∀ e, AlphaGenomeClient.predict_sequenceBody self sequence organism ot onto = .error e →
      AlphaGenomeClient.predict_sequence self sequence organism ot onto = errEnvelope e) ∧
  (∀ (self : AlphaGenomeClient) (chromosome : String) (start e2 : Int) (organism : String) (ot onto : Option (List String)),
    HasSuccessBool (AlphaGenomeClient.predict_interval self chromosome start e2 organism ot onto) ∧
    ∀ e, AlphaGenomeClient.predict_intervalBody self chromosome start e2 organism ot onto = .error e →
      AlphaGenomeClient.predict_interval self chromosome start e2 organism ot onto = errEnvelope e) ∧
  (∀ (self : AlphaGenomeClient) (chromosome : String) (position : Int) (ref alt : String) (istart iend : Int) (organism : String) (ot onto : Option (List String)),
    HasSuccessBool (AlphaGenomeClient.predict_variant self chromosome position ref alt istart iend organism ot onto) ∧
    ∀ e, AlphaGenomeClient.predict_variantBody self chromosome position ref alt istart iend organism ot onto = .error e →
      AlphaGenomeClient.predict_variant self chromosome position ref alt istart iend organism ot onto = errEnvelope e) ∧
  (∀ (self : AlphaGenomeClient) (chromosome : String) (position : Int) (ref alt : String) (istart iend : Int) (organism : String),
    HasSuccessBool (AlphaGenomeClient.score_variant self chromosome position ref alt istart iend organism) ∧
    ∀ e, AlphaGenomeClient.score_variantBody self chromosome position ref alt istart iend organism = .error e →
      AlphaGenomeClient.score_variant self chromosome position ref alt istart iend organism = errEnvelope e) ∧
  (∀ (self : AlphaGenomeClient) (organism : String),
    HasSuccessBool (AlphaGenomeClient.get_output_metadata self organism) ∧
    ∀ e, AlphaGenomeClient.get_output_metadataBody self organism = .error e →
      AlphaGenomeClient.get_output_metadata self organism = errEnvelope e) ∧
  (∀ (self : AlphaGenomeClient) (sequences : List String) (organism : String) (ot onto : Option (List String)) (mw : Int),
    HasSuccessBool (AlphaGenomeClient.predict_sequences self sequences organism ot onto mw) ∧
    ∀ e, AlphaGenomeClient.predict_sequencesBody self sequences organism ot onto mw = .error e →
      AlphaGenomeClient.predict_sequences self sequences organism ot onto mw = errEnvelope e) ∧
  (∀ (self : AlphaGenomeClient) (intervals : List IntervalDict) (organism : String) (ot onto : Option (List String)) (mw : Int),
    HasSuccessBool (AlphaGenomeClient.predict_intervals self intervals organism ot onto mw) ∧
    ∀ e, AlphaGenomeClient.predict_intervalsBody self intervals organism ot onto mw = .error e →
      AlphaGenomeClient.predict_intervals self intervals organism ot onto mw = errEnvelope e) ∧
  (∀ (self : AlphaGenomeClient) (variants : List VariantDict) (interval : IntervalDict) (organism : String) (ot onto : Option (List String)) (mw : Int),
    HasSuccessBool (AlphaGenomeClient.predict_variants self variants interval organism ot onto mw) ∧
    ∀ e, AlphaGenomeClient.predict_variantsBody self variants interval organism ot onto mw = .error e →
      AlphaGenomeClient.predict_variants self variants interval organism ot onto mw = errEnvelope e) ∧
  (∀ (self : AlphaGenomeClient) (variants : List VariantDict) (interval : IntervalDict) (organism : String) (mw : Int),
    HasSuccessBool (AlphaGenomeClient.score_variants self variants interval organism mw) ∧
    ∀ e, AlphaGenomeClient.score_variantsBody self variants interval organism mw = .error e →
      AlphaGenomeClient.score_variants self variants interval organism mw = errEnvelope e) ∧
  (∀ (self : AlphaGenomeClient) (chromosome : String) (start e2 : Int) (organism : String),
    HasSuccessBool (AlphaGenomeClient.score_interval self chromosome start e2 organism) ∧
    ∀ e, AlphaGenomeClient.score_intervalBody self chromosome start e2 organism = .error e →
      AlphaGenomeClient.score_interval self chromosome start e2 organism = errEnvelope e) ∧
  (∀ (self : AlphaGenomeClient) (intervals : List IntervalDict) (organism : String) (mw : Int),
    HasSuccessBool (AlphaGenomeClient.score_intervals self intervals organism mw) ∧
    ∀ e, AlphaGenomeClient.score_intervalsBody self intervals organism mw = .error e →
      AlphaGenomeClient.score_intervals self intervals organism mw = errEnvelope e) ∧
  (∀ (self : AlphaGenomeClient) (chromosome : String) (start e2 : Int) (ismc : String) (isms isme : Int) (organism : String) (mw : Int),
    HasSuccessBool (AlphaGenomeClient.score_ism_variants self chromosome start e2 ismc isms isme organism mw) ∧
    ∀ e, AlphaGenomeClient.score_ism_variantsBody self chromosome start e2 ismc isms isme organism mw = .error e →
      AlphaGenomeClient.score_ism_variants self chromosome start e2 ismc isms isme organism mw = errEnvelope e) ∧
  (∀ (w : ExtWorld) (self : AlphaGenomeClient) (variant_string variant_format : String),
    HasSuccessBool (AlphaGenomeClient.parse_variant_string w self variant_string variant_format) ∧
    ∀ e, AlphaGenomeClient.parse_variant_stringBody w self variant_string variant_format = .error e →
      AlphaGenomeClient.parse_variant_string w self variant_string variant_format = errEnvelope e) ∧
  (∀ (self : AlphaGenomeClient) (data_type : String) (data : DataDict),
    HasSuccessBool (AlphaGenomeClient.validate_genomic_data self data_type data) ∧
    ∀ e, AlphaGenomeClient.validate_genomic_dataBody self data_type data = .error e →
      AlphaGenomeClient.validate_genomic_data self data_type data = errEnvelope e) ∧
  (∀ (self : AlphaGenomeClient),
    HasSuccessBool (AlphaGenomeClient.get_supported_outputs self) ∧
    ∀ e, AlphaGenomeClient.get_supported_outputsBody self = .error e →
      AlphaGenomeClient.get_supported_outputs self = errEnvelope e) ∧
  (∀ (self : AlphaGenomeClient) (interval1 interval2 : IntervalDict),
    HasSuccessBool (AlphaGenomeClient.calculate_genomic_overlap self interval1 interval2) ∧
    ∀ e, AlphaGenomeClient.calculate_genomic_overlapBody self interval1 interval2 = .error e →
      AlphaGenomeClient.calculate_genomic_overlap self interval1 interval2 = errEnvelope e) ∧
  (∀ (self : AlphaGenomeClient) (sequence : String),
    HasSuccessBool (AlphaGenomeClient.get_sequence_info self sequence) ∧
    ∀ e, AlphaGenomeClient.get_sequence_infoBody self sequence = .error e →
      AlphaGenomeClient.get_sequence_info self sequence = errEnvelope e) ∧
  (∀ (self : AlphaGenomeClient) (gene_symbol organism : String) (fs : Int) (ot : Option (List String)),
    HasSuccessBool (AlphaGenomeClient.analyze_gene_region self gene_symbol organism fs ot) ∧
    ∀ e, AlphaGenomeClient.analyze_gene_regionBody self gene_symbol organism fs ot = .error e →
      AlphaGenomeClient.analyze_gene_region self gene_symbol organism fs ot = errEnvelope e) ∧
  (∀ (self : AlphaGenomeClient) (sequence1 sequence2 organism : String) (ot : Option (List String)),
    HasSuccessBool (AlphaGenomeClient.compare_sequences self sequence1 sequence2 organism ot) ∧
    ∀ e, AlphaGenomeClient.compare_sequencesBody self sequence1 sequence2 organism ot = .error e →
      AlphaGenomeClient.compare_sequences self sequence1 sequence2 organism ot = errEnvelope e) ∧
  (∀ (self : AlphaGenomeClient) (variants : List VariantDict) (interval : IntervalDict) (organism rm : String) (mw : Int),
    HasSuccessBool (AlphaGenomeClient.rank_variants_by_impact self variants interval organism rm mw) ∧
    ∀ e, AlphaGenomeClient.rank_variants_by_impactBody self variants interval organism rm mw = .error e →
      AlphaGenomeClient.rank_variants_by_impact self variants interval organism rm mw = errEnvelope e) := by
  refine ⟨?_, ?_, ?_, ?_, ?_, ?_, ?_, ?_, ?_, ?_, ?_, ?_, ?_, ?_, ?_, ?_, ?_, ?_, ?_, ?_⟩
  · intro x0 x1 x2 x3 x4
    exact ⟨hasSuccess_tryWrap _ (okShapes_predict_sequenceBody x0 x1 x2 x3 x4),
      fun e he => by unfold AlphaGenomeClient.predict_sequence; rw [he]; rfl⟩
  · intro x0 x1 x2 x3 x4 x5 x6
    exact ⟨hasSuccess_tryWrap _ (okShapes_predict_intervalBody x0 x1 x2 x3 x4 x5 x6),
      fun e he => by unfold AlphaGenomeClient.predict_interval; rw [he]; rfl⟩
  · intro x0 x1 x2 x3 x4 x5 x6 x7 x8 x9
    exact ⟨hasSuccess_tryWrap _ (okShapes_predict_variantBody x0 x1 x2 x3 x4 x5 x6 x7 x8 x9),
      fun e he => by unfold AlphaGenomeClient.predict_variant; rw [he]; rfl⟩
  · intro x0 x1 x2 x3 x4 x5 x6 x7
    exact ⟨hasSuccess_tryWrap _ (okShapes_score_variantBody x0 x1 x2 x3 x4 x5 x6 x7),
      fun e he => by unfold AlphaGenomeClient.score_variant; rw [he]; rfl⟩
  · intro x0 x1
    exact ⟨hasSuccess_tryWrap _ (okShapes_get_output_metadataBody x0 x1),
      fun e he => by unfold AlphaGenomeClient.get_output_metadata; rw [he]; rfl⟩
  · intro x0 x1 x2 x3 x4 x5
    exact ⟨hasSuccess_tryWrap _ (okShapes_predict_sequencesBody x0 x1 x2 x3 x4 x5),
      fun e he => by unfold AlphaGenomeClient.predict_sequences; rw [he]; rfl⟩
  · intro x0 x1 x2 x3 x4 x5
    exact ⟨hasSuccess_tryWrap _ (okShapes_predict_intervalsBody x0 x1 x2 x3 x4 x5),
      fun e he => by unfold AlphaGenomeClient.predict_intervals; rw [he]; rfl⟩
  · intro x0 x1 x2 x3 x4 x5 x6
    exact ⟨hasSuccess_tryWrap _ (okShapes_predict_variantsBody x0 x1 x2 x3 x4 x5 x6),
      fun e he => by unfold AlphaGenomeClient.predict_variants; rw [he]; rfl⟩
  · intro x0 x1 x2 x3 x4
    exact ⟨hasSuccess_tryWrap _ (okShapes_score_variantsBody x0 x1 x2 x3 x4),
      fun e he => by unfold AlphaGenomeClient.score_variants; rw [he]; rfl⟩
  · intro x0 x1 x2 x3 x4
    exact ⟨hasSuccess_tryWrap _ (okShapes_score_intervalBody x0 x1 x2 x3 x4),
      fun e he => by unfold AlphaGenomeClient.score_interval; rw [he]; rfl⟩
  · intro x0 x1 x2 x3
    exact ⟨hasSuccess_tryWrap _ (okShapes_score_intervalsBody x0 x1 x2 x3),
      fun e he => by unfold AlphaGenomeClient.score_intervals; rw [he]; rfl⟩
  · intro x0 x1 x2 x3 x4 x5 x6 x7 x8
    exact ⟨hasSuccess_tryWrap _ (okShapes_score_ism_variantsBody x0 x1 x2 x3 x4 x5 x6 x7 x8),
      fun e he => by unfold AlphaGenomeClient.score_ism_variants; rw [he]; rfl⟩
  · intro x0 x1 x2 x3
    exact ⟨hasSuccess_tryWrap _ (okShapes_parse_variant_stringBody x0 x1 x2 x3),
      fun e he => by unfold AlphaGenomeClient.parse_variant_string; rw [he]; rfl⟩
  · intro x0 x1 x2
    exact ⟨hasSuccess_tryWrap _ (okShapes_validate_genomic_dataBody x0 x1 x2),
      fun e he => by unfold AlphaGenomeClient.validate_genomic_data; rw [he]; rfl⟩
  · intro x0
    exact ⟨hasSuccess_tryWrap _ (okShapes_get_supported_outputsBody x0),
      fun e he => by unfold AlphaGenomeClient.get_supported_outputs; rw [he]; rfl⟩
  · intro x0 x1 x2
    exact ⟨hasSuccess_tryWrap _ (okShapes_calculate_genomic_overlapBody x0 x1 x2),
      fun e he => by unfold AlphaGenomeClient.calculate_genomic_overlap; rw [he]; rfl⟩
  · intro x0 x1
    exact ⟨hasSuccess_tryWrap _ (okShapes_get_sequence_infoBody x0 x1),
      fun e he => by unfold AlphaGenomeClient.get_sequence_info; rw [he]; rfl⟩
  · intro x0 x1 x2 x3 x4
    exact ⟨hasSuccess_tryWrap _ (okShapes_analyze_gene_regionBody x0 x1 x2 x3 x4),
      fun e he => by unfold AlphaGenomeClient.analyze_gene_region; rw [he]; rfl⟩
  · intro x0 x1 x2 x3 x4
    exact ⟨hasSuccess_tryWrap _ (okShapes_compare_sequencesBody x0 x1 x2 x3 x4),
      fun e he => by unfold AlphaGenomeClient.compare_sequences; rw [he]; rfl⟩
  · intro x0 x1 x2 x3 x4 x5
    exact ⟨hasSuccess_tryWrap _ (okShapes_rank_variants_by_impactBody x0 x1 x2 x3 x4 x5),
      fun e he => by unfold AlphaGenomeClient.rank_variants_by_impact; rw [he]; rfl⟩

/-- Witness for C1: with a concrete raising client, `predict_sequence`
returns exactly the failure envelope of the raised exception. -/
theorem C1_uniform_success_envelope_witness :
    AlphaGenomeClient.predict_sequence failSelf "ACGT" "human" Option.none Option.none =
      errEnvelope ⟨"ConnectionError", "service unreachable"⟩ :=
  (C1_uniform_success_envelope.1 failSelf "ACGT" "human" Option.none Option.none).2
    ⟨"ConnectionError", "service unreachable"⟩ (by rfl)

/-- C9: whatever the `organism` argument, the enum conversion always yields
`Organism.HOMO_SAPIENS`, and every client-contacting method constructs an
identical client request for any two organism strings: the organism argument
never influences the prediction request. -/
theorem C9_organism_never_influences_request :
  (∀ organism, organismToEnum organism = Organism.HOMO_SAPIENS) ∧
  (∀ (sequence : String) (ot onto : Option (List String)) (organism1 organism2 : String),
    AlphaGenomeClient.predict_sequenceRequest sequence organism1 ot onto = AlphaGenomeClient.predict_sequenceRequest sequence organism2 ot onto) ∧
  (∀ (chromosome : String) (start e2 : Int) (ot onto : Option (List String)) (organism1 organism2 : String),
    AlphaGenomeClient.predict_intervalRequest chromosome start e2 organism1 ot onto = AlphaGenomeClient.predict_intervalRequest chromosome start e2 organism2 ot onto) ∧
  (∀ (chromosome : String) (position : Int) (ref alt : String) (istart iend : Int) (ot onto : Option (List String)) (organism1 organism2 : String),
    AlphaGenomeClient.predict_variantRequest chromosome position ref alt istart iend organism1 ot onto = AlphaGenomeClient.predict_variantRequest chromosome position ref alt istart iend organism2 ot onto) ∧
  (∀ (chromosome : String) (position : Int) (ref alt : String) (istart iend : Int) (organism1 organism2 : String),
    AlphaGenomeClient.score_variantRequest chromosome position ref alt istart iend organism1 = AlphaGenomeClient.score_variantRequest chromosome position ref alt istart iend organism2) ∧
  (∀ (organism1 organism2 : String),
    AlphaGenomeClient.get_output_metadataRequest organism1 = AlphaGenomeClient.get_output_metadataRequest organism2) ∧
  (∀ (sequences : List String) (ot onto : Option (List String)) (mw : Int) (organism1 organism2 : String),
    AlphaGenomeClient.predict_sequencesRequest sequences organism1 ot onto mw = AlphaGenomeClient.predict_sequencesRequest sequences organism2 ot onto mw) ∧
  (∀ (intervals : List IntervalDict) (ot onto : Option (List String)) (mw : Int) (organism1 organism2 : String),
    AlphaGenomeClient.predict_intervalsRequest intervals organism1 ot onto mw = AlphaGenomeClient.predict_intervalsRequest intervals organism2 ot onto mw) ∧
  (∀ (variants : List VariantDict) (interval : IntervalDict) (ot onto : Option (List String)) (mw : Int) (organism1 organism2 : String),
    AlphaGenomeClient.predict_variantsRequest variants interval organism1 ot onto mw = AlphaGenomeClient.predict_variantsRequest variants interval organism2 ot onto mw) ∧
  (∀ (variants : List VariantDict) (interval : IntervalDict) (mw : Int) (organism1 organism2 : String),
    AlphaGenomeClient.score_variantsRequest variants interval organism1 mw = AlphaGenomeClient.score_variantsRequest variants interval organism2 mw) ∧
  (∀ (chromosome : String) (start e2 : Int) (organism1 organism2 : String),
    AlphaGenomeClient.score_intervalRequest chromosome start e2 organism1 = AlphaGenomeClient.score_intervalRequest chromosome start e2 organism2) ∧
  (∀ (intervals : List IntervalDict) (mw : Int) (organism1 organism2 : String),
    AlphaGenomeClient.score_intervalsRequest intervals organism1 mw = AlphaGenomeClient.score_intervalsRequest intervals organism2 mw) ∧
  (∀ (chromosome : String) (start e2 : Int) (ismc : String) (isms isme : Int) (mw : Int) (organism1 organism2 : String),
    AlphaGenomeClient.score_ism_variantsRequest chromosome start e2 ismc isms isme organism1 mw = AlphaGenomeClient.score_ism_variantsRequest chromosome start e2 ismc isms isme organism2 mw) := by
  have hconst : ∀ o, organismToEnum o = Organism.HOMO_SAPIENS := by
    intro o
    unfold organismToEnum
    split <;> rfl
  refine ⟨hconst, ?_, ?_, ?_, ?_, ?_, ?_, ?_, ?_, ?_, ?_, ?_, ?_⟩
  · intro x0 x1 x2 x3 x4
    simp [AlphaGenomeClient.predict_sequenceRequest, hconst]
  · intro x0 x1 x2 x3 x4 x5 x6
    simp [AlphaGenomeClient.predict_intervalRequest, hconst]
  · intro x0 x1 x2 x3 x4 x5 x6 x7 x8 x9
    simp [AlphaGenomeClient.predict_variantRequest, hconst]
  · intro x0 x1 x2 x3 x4 x5 x6 x7
    simp [AlphaGenomeClient.score_variantRequest, hconst]
  · intro x0 x1
    simp [AlphaGenomeClient.get_output_metadataRequest, hconst]
  · intro x0 x1 x2 x3 x4 x5
    simp [AlphaGenomeClient.predict_sequencesRequest, hconst]
  · intro x0 x1 x2 x3 x4 x5
    simp [AlphaGenomeClient.predict_intervalsRequest, hconst]
  · intro x0 x1 x2 x3 x4 x5 x6
    simp [AlphaGenomeClient.predict_variantsRequest, hconst]
  · intro x0 x1 x2 x3 x4
    simp [AlphaGenomeClient.score_variantsRequest, hconst]
  · intro x0 x1 x2 x3 x4
    simp [AlphaGenomeClient.score_intervalRequest, hconst]
  · intro x0 x1 x2 x3
    simp [AlphaGenomeClient.score_intervalsRequest, hconst]
  · intro x0 x1 x2 x3 x4 x5 x6 x7 x8
    simp [AlphaGenomeClient.score_ism_variantsRequest, hconst]

theorem tryWrap_pure (v : Val) : tryWrap (pure v) = v := rfl

/-- Evaluation of `validate_genomic_data` on the `interval` data type: the
`valid` flag is exactly the emptiness of the interval error list. -/
theorem validate_interval_eval (self : AlphaGenomeClient) (data : DataDict) :
    AlphaGenomeClient.validate_genomic_data self "interval" data =
      .dict [("success", .bool true),
             ("result", .dict [("valid", .bool (AlphaGenomeClient.intervalErrors data).isEmpty),
                               ("warnings", .list []),
                               ("errors", .list ((AlphaGenomeClient.intervalErrors data).map Val.str))]),
             ("data_type", .str "interval")] := by
  unfold AlphaGenomeClient.validate_genomic_data AlphaGenomeClient.validate_genomic_dataBody
    AlphaGenomeClient.validationTriple
  rfl

/-- C10: for a data type outside sequence, interval and variant, no
validation branch runs, so the result is reported valid with empty error and
warning lists. -/
theorem C10_unknown_data_type_reported_valid :
    ∀ (self : AlphaGenomeClient) (data_type : String) (data : DataDict),
      data_type ≠ "sequence" → data_type ≠ "interval" → data_type ≠ "variant" →
        AlphaGenomeClient.validate_genomic_data self data_type data =
          .dict [("success", .bool true),
                 ("result", .dict [("valid", .bool true),
                                   ("warnings", .list []),
                                   ("errors", .list [])]),
                 ("data_type", .str data_type)] := by
  intro self data_type data h1 h2 h3
  unfold AlphaGenomeClient.validate_genomic_data AlphaGenomeClient.validate_genomic_dataBody
    AlphaGenomeClient.validationTriple
  simp [h1, h2, h3, tryWrap_pure]

/-- Witness for C10 at the concrete data type junk. -/
theorem C10_unknown_data_type_reported_valid_witness :
    AlphaGenomeClient.validate_genomic_data okSelf "junk"
        ⟨Option.none, Option.none, Option.none, Option.none, Option.none, Option.none, Option.none⟩ =
      .dict [("success", .bool true),
             ("result", .dict [("valid", .bool true),
                               ("warnings", .list []),
                               ("errors", .list [])]),
             ("data_type", .str "junk")] :=
  C10_unknown_data_type_reported_valid okSelf "junk" _ (by decide) (by decide) (by decide)

theorem lookup2_validate_valid (b : Bool) (w e : List Val) (dt : String) :
    lookup2 (.dict [("success", .bool true),
                    ("result", .dict [("valid", .bool b), ("warnings", .list w), ("errors", .list e)]),
                    ("data_type", .str dt)]) "result" "valid" = some (.bool b) := rfl

theorem lookup2_validate_errors (b : Bool) (w e : List Val) (dt : String) :
    lookup2 (.dict [("success", .bool true),
                    ("result", .dict [("valid", .bool b), ("warnings", .list w), ("errors", .list e)]),
                    ("data_type", .str dt)]) "result" "errors" = some (.list e) := rfl

/-- C7: on the `interval` data type, validation succeeds with a true `valid`
flag exactly when the chromosome is a non-empty string, both coordinates are
present, start is less than end and start is at least 1; whenever `valid` is
false the error list is non-empty. -/
theorem C7_validate_interval_valid_iff :
    ∀ (self : AlphaGenomeClient) (data : DataDict),
      (lookup2 (AlphaGenomeClient.validate_genomic_data self "interval" data) "result" "valid" =
          some (.bool true) ↔
        (data.chromosome.getD "" ≠ "" ∧
          ∃ s e, data.start = some s ∧ data.«end» = some e ∧ s < e ∧ 1 ≤ s)) ∧
      (lookup2 (AlphaGenomeClient.validate_genomic_data self "interval" data) "result" "valid" =
          some (.bool false) →
        ∃ l, lookup2 (AlphaGenomeClient.validate_genomic_data self "interval" data) "result" "errors" =
          some (.list l) ∧ l ≠ []) := by
  intro self data
  rw [validate_interval_eval, lookup2_validate_valid, lookup2_validate_errors]
  constructor
  · simp only [Option.some.injEq, Val.bool.injEq]
    rw [List.isEmpty_iff]
    unfold AlphaGenomeClient.intervalErrors
    constructor
    · intro hemp
      rw [List.append_eq_nil] at hemp
      obtain ⟨h1, h2⟩ := hemp
      constructor
      · intro hc
        rw [if_pos hc] at h1
        exact absurd h1 (by simp)
      · rcases hs : data.start with _ | s
        · rw [hs] at h2
          simp at h2
        · rcases he : data.«end» with _ | e
          · rw [hs, he] at h2
            simp at h2
          · rw [hs, he] at h2
            have h2b : (if s ≥ e then ["End position must be greater than start position"]
                        else if s < 1 then ["Start position must be positive"]
                        else []) = ([] : List String) := h2
            split_ifs at h2b with hge hlt
            exact ⟨s, e, rfl, rfl, by omega, by omega⟩
    · rintro ⟨hc, s, e, hs, he, hlt, hge⟩
      have hge2 : ¬ s ≥ e := by omega
      have hlt2 : ¬ s < 1 := by omega
      rw [hs, he, if_neg hc]
      simp [hge2, hlt2]
  · simp only [Option.some.injEq, Val.bool.injEq, Val.list.injEq]
    intro hne
    refine ⟨(AlphaGenomeClient.intervalErrors data).map Val.str, rfl, ?_⟩
    simp only [ne_eq, List.map_eq_nil_iff]
    intro hnil
    simp [hnil] at hne

/-- Witness for C7: a valid interval yields valid true, and an inverted
interval yields valid false with a non-empty error list. -/
theorem C7_validate_interval_valid_iff_witness :
    (lookup2 (AlphaGenomeClient.validate_genomic_data okSelf "interval"
        ⟨Option.none, some "chr1", some 100, some 200, Option.none, Option.none, Option.none⟩)
      "result" "valid" = some (.bool true)) ∧
    (∃ l, lookup2 (AlphaGenomeClient.validate_genomic_data okSelf "interval"
        ⟨Option.none, some "chr1", some 200, some 100, Option.none, Option.none, Option.none⟩)
      "result" "errors" = some (.list l) ∧ l ≠ []) := by
  constructor
  · exact (C7_validate_interval_valid_iff okSelf _).1.mpr
      (by exact ⟨by decide, 100, 200, rfl, rfl, by norm_num, by norm_num⟩)
  · exact (C7_validate_interval_valid_iff okSelf _).2 (by rfl)

theorem predict_sequence_empty_eval (c : DnaClient) (organism : String)
    (ot onto : Option (List String)) :
    AlphaGenomeClient.predict_sequence ⟨c⟩ "" organism ot onto =
      errEnvelope ⟨"ValueError", "Sequence must be a non-empty string"⟩ := rfl

theorem predict_sequence_invalid_eval (c : DnaClient) (sequence organism : String)
    (ot onto : Option (List String)) (hne : sequence ≠ "")
    (hbad : allInAlphabet (pyUpper sequence) dnaCharsN = false) :
    AlphaGenomeClient.predict_sequence ⟨c⟩ sequence organism ot onto =
      errEnvelope ⟨"ValueError", "Sequence contains invalid characters. Only A, T, G, C, N are allowed"⟩ := by
  unfold AlphaGenomeClient.predict_sequence AlphaGenomeClient.predict_sequenceBody
    AlphaGenomeClient.predict_sequenceRequest
  simp [hne, hbad, Bind.bind, Except.bind, throw, throwThe, MonadExceptOf.throw, tryWrap,
    pure, Except.pure]

theorem predict_sequence_valid_eval (c : DnaClient) (sequence organism : String)
    (ot onto : Option (List String)) (hne : sequence ≠ "")
    (hgood : allInAlphabet (pyUpper sequence) dnaCharsN = true) :
    AlphaGenomeClient.predict_sequence ⟨c⟩ sequence organism ot onto =
      tryWrap (do
        let result ← c.predict_sequence (pyUpper sequence) (organismToEnum organism)
          (convertOutputTypes ot) onto
        pure (.dict [("success", .bool true),
                     ("result", _serialize_output result),
                     ("sequence_length", .int sequence.length)])) := by
  unfold AlphaGenomeClient.predict_sequence AlphaGenomeClient.predict_sequenceBody
    AlphaGenomeClient.predict_sequenceRequest
  simp [hne, hgood, Bind.bind, Except.bind, pure, Except.pure]

/-- C3: `predict_sequence` returns the non-empty-string failure envelope
exactly on the empty sequence, returns the invalid-characters envelope
exactly on a non-empty sequence whose uppercased form leaves the DNA
alphabet, and otherwise performs the client call on the uppercased
sequence.  The failure envelopes hold for every client, so the external
client is not consulted on a validation failure. -/
theorem C3_predict_sequence_validation :
    ∀ (sequence organism : String) (ot onto : Option (List String)),
      ((∀ c : DnaClient, AlphaGenomeClient.predict_sequence ⟨c⟩ sequence organism ot onto =
          errEnvelope ⟨"ValueError", "Sequence must be a non-empty string"⟩) ↔ sequence = "") ∧
      ((∀ c : DnaClient, AlphaGenomeClient.predict_sequence ⟨c⟩ sequence organism ot onto =
          errEnvelope ⟨"ValueError", "Sequence contains invalid characters. Only A, T, G, C, N are allowed"⟩) ↔
        (sequence ≠ "" ∧ allInAlphabet (pyUpper sequence) dnaCharsN = false)) ∧
      (sequence ≠ "" → allInAlphabet (pyUpper sequence) dnaCharsN = true →
        ∀ c : DnaClient, AlphaGenomeClient.predict_sequence ⟨c⟩ sequence organism ot onto =
          tryWrap (do
            let result ← c.predict_sequence (pyUpper sequence) (organismToEnum organism)
              (convertOutputTypes ot) onto
            pure (.dict [("success", .bool true),
                         ("result", _serialize_output result),
                         ("sequence_length", .int sequence.length)]))) := by
  intro sequence organism ot onto
  refine ⟨?_, ?_, ?_⟩
  · constructor
    · intro H
      by_contra hne
      by_cases hbad : allInAlphabet (pyUpper sequence) dnaCharsN = false
      · have h1 := H okClient
        rw [predict_sequence_invalid_eval okClient sequence organism ot onto hne hbad] at h1
        simp [errEnvelope] at h1
      · have hgood : allInAlphabet (pyUpper sequence) dnaCharsN = true := by
          revert hbad
          cases allInAlphabet (pyUpper sequence) dnaCharsN <;> simp
        have h1 := H okClient
        rw [predict_sequence_valid_eval okClient sequence organism ot onto hne hgood] at h1
        simp [okClient, Bind.bind, Except.bind, pure, Except.pure, tryWrap, errEnvelope] at h1
    · intro hemp
      subst hemp
      intro c
      exact predict_sequence_empty_eval c organism ot onto
  · constructor
    · intro H
      by_cases hne : sequence = ""
      · subst hne
        have h1 := H okClient
        rw [predict_sequence_empty_eval okClient organism ot onto] at h1
        simp [errEnvelope] at h1
      · refine ⟨hne, ?_⟩
        by_contra hbad2
        have hgood : allInAlphabet (pyUpper sequence) dnaCharsN = true := by
          revert hbad2
          cases allInAlphabet (pyUpper sequence) dnaCharsN <;> simp
        have h1 := H okClient
        rw [predict_sequence_valid_eval okClient sequence organism ot onto hne hgood] at h1
        simp [okClient, Bind.bind, Except.bind, pure, Except.pure, tryWrap, errEnvelope] at h1
    · rintro ⟨hne, hbad⟩ c
      exact predict_sequence_invalid_eval c sequence organism ot onto hne hbad
  · intro hne hgood c
    exact predict_sequence_valid_eval c sequence organism ot onto hne hgood

/-- Witness for C3: the empty sequence yields the non-empty-string envelope
for a concrete client, a sequence with a character outside the alphabet
yields the invalid-characters envelope, and a valid lowercase sequence
reaches the concrete client uppercased. -/
theorem C3_predict_sequence_validation_witness :
    (AlphaGenomeClient.predict_sequence ⟨okClient⟩ "" "human" Option.none Option.none =
      errEnvelope ⟨"ValueError", "Sequence must be a non-empty string"⟩) ∧
    (AlphaGenomeClient.predict_sequence ⟨okClient⟩ "acgx" "human" Option.none Option.none =
      errEnvelope ⟨"ValueError", "Sequence contains invalid characters. Only A, T, G, C, N are allowed"⟩) ∧
    (AlphaGenomeClient.predict_sequence ⟨okClient⟩ "acgt" "human" Option.none Option.none =
      tryWrap (do
        let result ← okClient.predict_sequence (pyUpper "acgt") (organismToEnum "human")
          (convertOutputTypes Option.none) Option.none
        pure (.dict [("success", .bool true),
                     ("result", _serialize_output result),
                     ("sequence_length", .int ("acgt" : String).length)]))) :=
  ⟨((C3_predict_sequence_validation "" "human" Option.none Option.none).1.mpr rfl) okClient,
   ((C3_predict_sequence_validation "acgx" "human" Option.none Option.none).2.1.mpr
     ⟨by decide, by decide⟩) okClient,
   ((C3_predict_sequence_validation "acgt" "human" Option.none Option.none).2.2
     (by decide) (by decide)) okClient⟩

theorem allInAlphabet_mem (s : String) (al : List Char) (h : allInAlphabet s al = true) :
    ∀ c ∈ s.data, c ∈ al := by
  unfold allInAlphabet at h
  rw [List.all_eq_true] at h
  intro c hc
  have hcontains := h c hc
  exact List.mem_of_elem_eq_true hcontains

theorem setDiffChars_nil (s : String) (h : allInAlphabet s dnaCharsN = true) :
    setDiffChars s dnaCharsN = [] := by
  unfold setDiffChars
  have hf : s.data.filter (fun c => dnaCharsN.contains c = false) = [] := by
    rw [List.filter_eq_nil]
    intro a ha
    have := allInAlphabet_mem s dnaCharsN h a ha
    simp_all
  rw [hf]
  rfl

theorem count_sum_eq_length (l : List Char) (h : ∀ c ∈ l, c ∈ dnaCharsN) :
    l.count 'A' + l.count 'T' + l.count 'G' + l.count 'C' + l.count 'N' = l.length := by
  induction l with
  | nil => simp
  | cons c cs ih =>
    have hc := h c (by simp)
    have hrest : ∀ x ∈ cs, x ∈ dnaCharsN := fun x hx => h x (by simp [hx])
    have ih2 := ih hrest
    unfold dnaCharsN at hc
    fin_cases hc <;> simp [List.count_cons] <;> omega

theorem round2_zero : round2 0 = 0 := by
  unfold round2 roundHalfEven
  norm_num

theorem count_eq_zero_of_all_N (l : List Char) (c : Char) (hc : c ≠ 'N')
    (h : l.all (fun ch => ch = 'N') = true) : l.count c = 0 := by
  rw [List.count_eq_zero]
  intro hmem
  rw [List.all_eq_true] at h
  have := h c hmem
  simp_all

/-- C8: on a non-empty sequence over the DNA alphabet, `get_sequence_info`
succeeds with a true `is_valid` flag and empty `invalid_characters`, the five
base counts sum to the reported length; on an all-N sequence the reported
GC content is zero (the division is guarded by `known_bases > 0`); the empty
sequence produces the `ValueError` failure envelope. -/
theorem C8_get_sequence_info_statistics :
    ∀ (self : AlphaGenomeClient) (sequence : String),
      (sequence ≠ "" → allInAlphabet (pyUpper sequence) dnaCharsN = true →
        dictLookup (AlphaGenomeClient.get_sequence_info self sequence) "success" = some (.bool true) ∧
        lookup2 (AlphaGenomeClient.get_sequence_info self sequence) "result" "is_valid" = some (.bool true) ∧
        lookup2 (AlphaGenomeClient.get_sequence_info self sequence) "result" "invalid_characters" = some (.list []) ∧
        lookup3 (AlphaGenomeClient.get_sequence_info self sequence) "result" "base_counts" "A" =
          some (.int ((pyUpper sequence).data.count 'A' : Int)) ∧
        lookup3 (AlphaGenomeClient.get_sequence_info self sequence) "result" "base_counts" "T" =
          some (.int ((pyUpper sequence).data.count 'T' : Int)) ∧
        lookup3 (AlphaGenomeClient.get_sequence_info self sequence) "result" "base_counts" "G" =
          some (.int ((pyUpper sequence).data.count 'G' : Int)) ∧
        lookup3 (AlphaGenomeClient.get_sequence_info self sequence) "result" "base_counts" "C" =
          some (.int ((pyUpper sequence).data.count 'C' : Int)) ∧
        lookup3 (AlphaGenomeClient.get_sequence_info self sequence) "result" "base_counts" "N" =
          some (.int ((pyUpper sequence).data.count 'N' : Int)) ∧
        lookup2 (AlphaGenomeClient.get_sequence_info self sequence) "result" "length" =
          some (.int ((pyUpper sequence).length : Int)) ∧
        ((pyUpper sequence).data.count 'A' : Int) + ((pyUpper sequence).data.count 'T' : Int) +
          ((pyUpper sequence).data.count 'G' : Int) + ((pyUpper sequence).data.count 'C' : Int) +
          ((pyUpper sequence).data.count 'N' : Int) = ((pyUpper sequence).length : Int)) ∧
      (sequence ≠ "" → (pyUpper sequence).data.all (fun ch => ch = 'N') = true →
        lookup2 (AlphaGenomeClient.get_sequence_info self sequence) "result" "gc_content" =
          some (.rat 0)) ∧
      (AlphaGenomeClient.get_sequence_info self "" =
        errEnvelope ⟨"ValueError", "Sequence cannot be empty"⟩) := by
  intro self sequence
  refine ⟨?_, ?_, ?_⟩
  · intro hne hall
    have hsd := setDiffChars_nil (pyUpper sequence) hall
    have hmem := allInAlphabet_mem (pyUpper sequence) dnaCharsN hall
    have hsum := count_sum_eq_length (pyUpper sequence).data hmem
    unfold AlphaGenomeClient.get_sequence_info AlphaGenomeClient.get_sequence_infoBody
    simp [hne, Bind.bind, Except.bind, pure, Except.pure, tryWrap, lookup2, lookup3,
      dictLookup, assocLookup, hsd]
    have hlen : (pyUpper sequence).length = (pyUpper sequence).data.length := rfl
    rw [hlen]
    omega
  · intro hne hallN
    have hA := count_eq_zero_of_all_N (pyUpper sequence).data 'A' (by decide) hallN
    have hT := count_eq_zero_of_all_N (pyUpper sequence).data 'T' (by decide) hallN
    have hG := count_eq_zero_of_all_N (pyUpper sequence).data 'G' (by decide) hallN
    have hC := count_eq_zero_of_all_N (pyUpper sequence).data 'C' (by decide) hallN
    unfold AlphaGenomeClient.get_sequence_info AlphaGenomeClient.get_sequence_infoBody
    simp [hne, Bind.bind, Except.bind, pure, Except.pure, tryWrap, lookup2,
      dictLookup, assocLookup, hA, hT, hG, hC, round2_zero]
  · rfl

/-- Witness for C8: a concrete valid sequence is reported valid, and a
concrete all-N sequence reports zero GC content. -/
theorem C8_get_sequence_info_statistics_witness :
    (lookup2 (AlphaGenomeClient.get_sequence_info okSelf "acgt") "result" "is_valid" =
      some (.bool true)) ∧
    (lookup2 (AlphaGenomeClient.get_sequence_info okSelf "nn") "result" "gc_content" =
      some (.rat 0)) :=
  ⟨((C8_get_sequence_info_statistics okSelf "acgt").1 (by decide) (by decide)).2.1,
   (C8_get_sequence_info_statistics okSelf "nn").2.1 (by decide) (by decide)⟩

/-- C4: the utility operations `parse_variant_string`,
`validate_genomic_data` and `get_sequence_info` are pure functions of their
arguments (and, for `parse_variant_string`, of the module-level external
parser): their results do not depend on the wrapped client object, so the
external client is never invoked and the wrapper state is never read or
modified. -/
theorem C4_utilities_ignore_client_state :
    (∀ (w : ExtWorld) (c1 c2 : DnaClient) (variant_string variant_format : String),
      AlphaGenomeClient.parse_variant_string w ⟨c1⟩ variant_string variant_format =
        AlphaGenomeClient.parse_variant_string w ⟨c2⟩ variant_string variant_format) ∧
    (∀ (c1 c2 : DnaClient) (data_type : String) (data : DataDict),
      AlphaGenomeClient.validate_genomic_data ⟨c1⟩ data_type data =
        AlphaGenomeClient.validate_genomic_data ⟨c2⟩ data_type data) ∧
    (∀ (c1 c2 : DnaClient) (sequence : String),
      AlphaGenomeClient.get_sequence_info ⟨c1⟩ sequence =
        AlphaGenomeClient.get_sequence_info ⟨c2⟩ sequence) :=
  ⟨fun _ _ _ _ _ => rfl, fun _ _ _ _ => rfl, fun _ _ _ => rfl⟩

/-- C2 (code bug): the dispatch branches for `parse_variant_string`,
`validate_genomic_data` and `calculate_genomic_overlap` read Namespace
attributes (`variant_string`, `data_type`, `interval1`) that the argument
parser never defines, so `main` prints an `AttributeError` failure envelope
and exits with status 1 instead of calling the client method. -/
theorem C2_missing_cli_arguments_attribute_error :
    mainRun testWorld (baseArgs "parse_variant_string") =
      (errEnvelope (namespaceAttributeError "variant_string"), 1) ∧
    mainRun testWorld (baseArgs "validate_genomic_data") =
      (errEnvelope (namespaceAttributeError "data_type"), 1) ∧
    mainRun testWorld (baseArgs "calculate_genomic_overlap") =
      (errEnvelope (namespaceAttributeError "interval1"), 1) :=
  ⟨rfl, rfl, rfl⟩

theorem str_data_append (x y : String) : (x ++ y).data = x.data ++ y.data := rfl

theorem splitChar_not_mem (sep : Char) (xs : List Char) (h : sep ∉ xs) :
    splitChar sep xs = [xs] := by
  induction xs with
  | nil => rfl
  | cons c cs ih =>
    have hc : ¬ c = sep := fun e => h (e ▸ List.mem_cons_self c cs)
    have hcs : sep ∉ cs := fun m => h (List.mem_cons_of_mem _ m)
    rw [splitChar, if_neg hc, ih hcs]

theorem splitChar_append (sep : Char) (xs ys : List Char) (h : sep ∉ xs) :
    splitChar sep (xs ++ sep :: ys) = xs :: splitChar sep ys := by
  induction xs with
  | nil =>
    simp only [List.nil_append]
    rw [splitChar, if_pos rfl]
  | cons c cs ih =>
    have hc : ¬ c = sep := fun e => h (e ▸ List.mem_cons_self c cs)
    have hcs : sep ∉ cs := fun m => h (List.mem_cons_of_mem _ m)
    simp only [List.cons_append]
    rw [splitChar, if_neg hc, ih hcs]

theorem digitSeqGo_chars (l : List Char) : ∀ (acc : Nat) (pu : Bool) (m : Nat),
    digitSeqGo acc pu l = some m → ∀ c ∈ l, c.isDigit = true ∨ c = '_' := by
  induction l with
  | nil =>
    intro acc pu m h c hc
    cases hc
  | cons x xs ih =>
    intro acc pu m h c hc
    rw [digitSeqGo] at h
    by_cases hx : x = '_'
    · rw [if_pos hx] at h
      cases pu with
      | true => simp at h
      | false =>
        simp only [Bool.false_eq_true, if_false] at h
        rcases List.mem_cons.mp hc with rfl | hmem
        · exact Or.inr hx
        · exact ih _ _ _ h c hmem
    · rw [if_neg hx] at h
      by_cases hd : x.isDigit
      · rw [if_pos hd] at h
        rcases List.mem_cons.mp hc with rfl | hmem
        · exact Or.inl hd
        · exact ih _ _ _ h c hmem
      · rw [if_neg hd] at h
        simp at h

theorem digitSeq_chars (l : List Char) (m : Nat) (h : digitSeq l = some m) :
    ∀ c ∈ l, c.isDigit = true ∨ c = '_' := by
  cases l with
  | nil =>
    intro c hc
    cases hc
  | cons x xs =>
    intro c hc
    rw [digitSeq] at h
    by_cases hd : x.isDigit
    · rw [if_pos hd] at h
      rcases List.mem_cons.mp hc with rfl | hmem
      · exact Or.inl hd
      · exact digitSeqGo_chars xs _ _ _ h c hmem
    · rw [if_neg hd] at h
      simp at h

theorem pyIntCore_chars (l : List Char) (n : Int) (h : pyIntCore l = some n) :
    ∀ c ∈ l, c.isDigit = true ∨ c = '_' ∨ c = '+' ∨ c = '-' := by
  cases l with
  | nil =>
    intro c hc
    cases hc
  | cons c0 rest =>
    intro c hc
    rw [pyIntCore] at h
    by_cases h0 : c0 = '+'
    · rw [if_pos h0] at h
      rcases List.mem_cons.mp hc with rfl | hmem
      · exact Or.inr (Or.inr (Or.inl h0))
      · cases hds : digitSeq rest with
        | none =>
          rw [hds] at h
          simp at h
        | some m =>
          rcases digitSeq_chars rest m hds c hmem with hd | hu
          · exact Or.inl hd
          · exact Or.inr (Or.inl hu)
    · rw [if_neg h0] at h
      by_cases h1 : c0 = '-'
      · rw [if_pos h1] at h
        rcases List.mem_cons.mp hc with rfl | hmem
        · exact Or.inr (Or.inr (Or.inr h1))
        · cases hds : digitSeq rest with
          | none =>
            rw [hds] at h
            simp at h
          | some m =>
            rcases digitSeq_chars rest m hds c hmem with hd | hu
            · exact Or.inl hd
            · exact Or.inr (Or.inl hu)
      · rw [if_neg h1] at h
        cases hds : digitSeq (c0 :: rest) with
        | none =>
          rw [hds] at h
          simp at h
        | some m =>
          rcases digitSeq_chars (c0 :: rest) m hds c hc with hd | hu
          · exact Or.inl hd
          · exact Or.inr (Or.inl hu)

theorem mem_dropWhile_or (pfn : Char → Bool) (l : List Char) :
    ∀ c ∈ l, c ∈ l.dropWhile pfn ∨ pfn c = true := by
  induction l with
  | nil =>
    intro c hc
    cases hc
  | cons x xs ih =>
    intro c hc
    by_cases hx : pfn x = true
    · rw [List.dropWhile_cons_of_pos hx]
      rcases List.mem_cons.mp hc with rfl | hmem
      · exact Or.inr hx
      · exact ih c hmem
    · rw [List.dropWhile_cons_of_neg hx]
      exact Or.inl hc

theorem mem_stripWs_or (l : List Char) : ∀ c ∈ l, c ∈ stripWs l ∨ pyWs c = true := by
  intro c hc
  unfold stripWs
  rcases mem_dropWhile_or pyWs l c hc with h1 | h1
  · have h2 : c ∈ (l.dropWhile pyWs).reverse := List.mem_reverse.mpr h1
    rcases mem_dropWhile_or pyWs _ c h2 with h3 | h3
    · exact Or.inl (List.mem_reverse.mpr h3)
    · exact Or.inr h3
  · exact Or.inr h1

theorem pyInt_no_colon (p : String) (n : Int) (h : pyInt p = .ok n) : ':' ∉ p.data := by
  intro hmem
  have hcore : ∃ m, pyIntCore (stripWs p.data) = some m := by
    unfold pyInt at h
    cases hpc : pyIntCore (stripWs p.data) with
    | none =>
      rw [hpc] at h
      simp at h
    | some m =>
      exact ⟨m, rfl⟩
  obtain ⟨m, hm⟩ := hcore
  rcases mem_stripWs_or p.data ':' hmem with hin | hws
  · have hchar := pyIntCore_chars _ _ hm ':' hin
    simp at hchar
  · simp [pyWs] at hws

theorem parse_dash_eval (w : ExtWorld) (self : AlphaGenomeClient) (c p r a vf : String)
    (n : Int) (hc : '-' ∉ c.data) (hp : '-' ∉ p.data) (hr : '-' ∉ r.data) (ha : '-' ∉ a.data)
    (hint : pyInt p = .ok n) :
    AlphaGenomeClient.parse_variant_string w self (c ++ "-" ++ p ++ "-" ++ r ++ "-" ++ a) vf =
      AlphaGenomeClient.parsedVariantDict c n r a (c ++ "-" ++ p ++ "-" ++ r ++ "-" ++ a) vf := by
  have hdata : (c ++ "-" ++ p ++ "-" ++ r ++ "-" ++ a).data
      = c.data ++ '-' :: (p.data ++ '-' :: (r.data ++ '-' :: a.data)) := by
    simp [str_data_append, List.append_assoc]
  have hin : pyInStr '-' (c ++ "-" ++ p ++ "-" ++ r ++ "-" ++ a) = true := by
    unfold pyInStr
    rw [hdata]
    simp
  have hsplit : pySplit '-' (c ++ "-" ++ p ++ "-" ++ r ++ "-" ++ a) = [c, p, r, a] := by
    unfold pySplit
    rw [hdata, splitChar_append _ _ _ hc, splitChar_append _ _ _ hp, splitChar_append _ _ _ hr,
      splitChar_not_mem _ _ ha]
    rfl
  unfold AlphaGenomeClient.parse_variant_string AlphaGenomeClient.parse_variant_stringBody
  simp [hin, hsplit, hint, Bind.bind, Except.bind, pure, Except.pure, tryWrap]

theorem parse_colon_eval (w : ExtWorld) (self : AlphaGenomeClient) (c p r a vf : String)
    (n : Int) (hcd : '-' ∉ c.data) (hcc : ':' ∉ c.data) (hpd : '-' ∉ p.data) (hpc : ':' ∉ p.data)
    (hrd : '-' ∉ r.data) (hrc : ':' ∉ r.data) (had : '-' ∉ a.data) (hac : ':' ∉ a.data)
    (hint : pyInt p = .ok n) :
    AlphaGenomeClient.parse_variant_string w self (c ++ ":" ++ p ++ ":" ++ r ++ ":" ++ a) vf =
      AlphaGenomeClient.parsedVariantDict c n r a (c ++ ":" ++ p ++ ":" ++ r ++ ":" ++ a) vf := by
  have hdata : (c ++ ":" ++ p ++ ":" ++ r ++ ":" ++ a).data
      = c.data ++ ':' :: (p.data ++ ':' :: (r.data ++ ':' :: a.data)) := by
    simp [str_data_append, List.append_assoc]
  have hnodash : pyInStr '-' (c ++ ":" ++ p ++ ":" ++ r ++ ":" ++ a) = false := by
    unfold pyInStr
    rw [hdata]
    simp [hcd, hpd, hrd, had]
  have hincolon : pyInStr ':' (c ++ ":" ++ p ++ ":" ++ r ++ ":" ++ a) = true := by
    unfold pyInStr
    rw [hdata]
    simp
  have hsplit : pySplit ':' (c ++ ":" ++ p ++ ":" ++ r ++ ":" ++ a) = [c, p, r, a] := by
    unfold pySplit
    rw [hdata, splitChar_append _ _ _ hcc, splitChar_append _ _ _ hpc, splitChar_append _ _ _ hrc,
      splitChar_not_mem _ _ hac]
    rfl
  unfold AlphaGenomeClient.parse_variant_string AlphaGenomeClient.parse_variant_stringBody
  simp [hnodash, hincolon, hsplit, hint, Bind.bind, Except.bind, pure, Except.pure, tryWrap]

/-- C5 (amended): when the chromosome and both alleles contain neither dash
nor colon, and the position string parses as an integer and additionally
contains no dash, the dash notation and the colon notation both parse
manually and return identical chromosome, position, reference and alternate
fields (a colon cannot occur in a string `int()` accepts). -/
theorem C5_dash_colon_notation_agree :
    ∀ (w : ExtWorld) (self : AlphaGenomeClient) (c p r a vf : String) (n : Int),
      '-' ∉ c.data → ':' ∉ c.data → '-' ∉ p.data →
      '-' ∉ r.data → ':' ∉ r.data → '-' ∉ a.data → ':' ∉ a.data →
      pyInt p = .ok n →
      AlphaGenomeClient.parse_variant_string w self (c ++ "-" ++ p ++ "-" ++ r ++ "-" ++ a) vf =
        AlphaGenomeClient.parsedVariantDict c n r a (c ++ "-" ++ p ++ "-" ++ r ++ "-" ++ a) vf ∧
      AlphaGenomeClient.parse_variant_string w self (c ++ ":" ++ p ++ ":" ++ r ++ ":" ++ a) vf =
        AlphaGenomeClient.parsedVariantDict c n r a (c ++ ":" ++ p ++ ":" ++ r ++ ":" ++ a) vf := by
  intro w self c p r a vf n hcd hcc hpd hrd hrc had hac hint
  have hpc : ':' ∉ p.data := pyInt_no_colon p n hint
  exact ⟨parse_dash_eval w self c p r a vf n hcd hpd hrd had hint,
         parse_colon_eval w self c p r a vf n hcd hcc hpd hpc hrd hrc had hac hint⟩

/-- Counterexample to C5 as stated: the position string `-5` parses as an
integer and the other parts contain neither dash nor colon, yet the dash
notation splits into five fields, falls through to the external parser and
fails, so the two notations do not both succeed. -/
theorem C5_counterexample_negative_position :
    pyInt "-5" = .ok (-5) ∧
    pyInStr '-' "chr1" = false ∧ pyInStr ':' "chr1" = false ∧
    pyInStr '-' "A" = false ∧ pyInStr ':' "A" = false ∧
    pyInStr '-' "G" = false ∧ pyInStr ':' "G" = false ∧
    ("chr1" ++ "-" ++ "-5" ++ "-" ++ "A" ++ "-" ++ "G") = "chr1--5-A-G" ∧
    AlphaGenomeClient.parse_variant_string testWorld okSelf "chr1--5-A-G" "default" =
      errEnvelope ⟨"ValueError", "could not parse variant"⟩ ∧
    dictLookup (AlphaGenomeClient.parse_variant_string testWorld okSelf "chr1--5-A-G" "default")
      "success" = some (.bool false) :=
  ⟨rfl, rfl, rfl, rfl, rfl, rfl, rfl, rfl, rfl, rfl⟩

/-- Witness for the amended C5 at a concrete variant. -/
theorem C5_dash_colon_notation_agree_witness :
    (AlphaGenomeClient.parse_variant_string testWorld okSelf
        ("chr1" ++ "-" ++ "100" ++ "-" ++ "A" ++ "-" ++ "G") "default" =
      AlphaGenomeClient.parsedVariantDict "chr1" 100 "A" "G"
        ("chr1" ++ "-" ++ "100" ++ "-" ++ "A" ++ "-" ++ "G") "default") ∧
    (AlphaGenomeClient.parse_variant_string testWorld okSelf
        ("chr1" ++ ":" ++ "100" ++ ":" ++ "A" ++ ":" ++ "G") "default" =
      AlphaGenomeClient.parsedVariantDict "chr1" 100 "A" "G"
        ("chr1" ++ ":" ++ "100" ++ ":" ++ "A" ++ ":" ++ "G") "default") :=
  C5_dash_colon_notation_agree testWorld okSelf "chr1" "100" "A" "G" "default" 100
    (by decide) (by decide) (by decide) (by decide) (by decide) (by decide) (by decide) (by rfl)

theorem calc_overlap_eval (self : AlphaGenomeClient) (i1 i2 : IntervalDict)
    (h1a : 0 ≤ i1.start) (h1b : 0 ≤ i1.«end») (h1c : i1.start ≤ i1.«end»)
    (h2a : 0 ≤ i2.start) (h2b : 0 ≤ i2.«end») (h2c : i2.start ≤ i2.«end»)
    (hov : Interval.overlaps ⟨i1.chromosome, i1.start, i1.«end»⟩
      ⟨i2.chromosome, i2.start, i2.«end»⟩ = true) :
    AlphaGenomeClient.calculate_genomic_overlap self i1 i2 =
      .dict [("success", .bool true),
        ("result", .dict [
          ("overlaps", .bool true),
          ("interval1", .str (fmtInterval i1.chromosome i1.start i1.«end»)),
          ("interval2", .str (fmtInterval i2.chromosome i2.start i2.«end»)),
          ("intersection", .dict [
            ("chromosome", .str i1.chromosome),
            ("start", .int (max i1.start i2.start)),
            ("end", .int (min i1.«end» i2.«end»)),
            ("length", .int (min i1.«end» i2.«end» - max i1.start i2.start + 1))]),
          ("overlap_stats", .dict [
            ("overlap_length", .int (min i1.«end» i2.«end» - max i1.start i2.start + 1)),
            ("interval1_length", .int (i1.«end» - i1.start + 1)),
            ("interval2_length", .int (i2.«end» - i2.start + 1)),
            ("overlap_percentage_int1",
              .rat (((min i1.«end» i2.«end» - max i1.start i2.start + 1 : Int) : ℚ) /
                ((i1.«end» - i1.start + 1 : Int) : ℚ) * 100)),
            ("overlap_percentage_int2",
              .rat (((min i1.«end» i2.«end» - max i1.start i2.start + 1 : Int) : ℚ) /
                ((i2.«end» - i2.start + 1 : Int) : ℚ) * 100))])])] := by
  have hv1 : ¬ (i1.start < 0 ∨ i1.«end» < 0) := by omega
  have hv1b : ¬ (i1.«end» < i1.start) := by omega
  have hv2 : ¬ (i2.start < 0 ∨ i2.«end» < 0) := by omega
  have hv2b : ¬ (i2.«end» < i2.start) := by omega
  unfold AlphaGenomeClient.calculate_genomic_overlap AlphaGenomeClient.calculate_genomic_overlapBody
    Interval.make Interval.intersect
  simp [hv1, hv1b, hv2, hv2b, hov, Bind.bind, Except.bind, pure, Except.pure, tryWrap]

/-- C6: when both interval dictionaries build valid external intervals and
those intervals overlap, `calculate_genomic_overlap` succeeds reporting
`overlaps = true`, interval lengths counted as end minus start plus one, an
intersection whose `length` equals its end minus start plus one, and an
`overlap_length` equal to that same value; for two identical (overlapping)
intervals both overlap percentages equal 100. -/
theorem C6_overlap_stats :
    (∀ (self : AlphaGenomeClient) (i1 i2 : IntervalDict),
      0 ≤ i1.start → 0 ≤ i1.«end» → i1.start ≤ i1.«end» →
      0 ≤ i2.start → 0 ≤ i2.«end» → i2.start ≤ i2.«end» →
      Interval.overlaps ⟨i1.chromosome, i1.start, i1.«end»⟩
        ⟨i2.chromosome, i2.start, i2.«end»⟩ = true →
      AlphaGenomeClient.calculate_genomic_overlap self i1 i2 =
        .dict [("success", .bool true),
          ("result", .dict [
            ("overlaps", .bool true),
            ("interval1", .str (fmtInterval i1.chromosome i1.start i1.«end»)),
            ("interval2", .str (fmtInterval i2.chromosome i2.start i2.«end»)),
            ("intersection", .dict [
              ("chromosome", .str i1.chromosome),
              ("start", .int (max i1.start i2.start)),
              ("end", .int (min i1.«end» i2.«end»)),
              ("length", .int (min i1.«end» i2.«end» - max i1.start i2.start + 1))]),
            ("overlap_stats", .dict [
              ("overlap_length", .int (min i1.«end» i2.«end» - max i1.start i2.start + 1)),
              ("interval1_length", .int (i1.«end» - i1.start + 1)),
              ("interval2_length", .int (i2.«end» - i2.start + 1)),
              ("overlap_percentage_int1",
                .rat (((min i1.«end» i2.«end» - max i1.start i2.start + 1 : Int) : ℚ) /
                  ((i1.«end» - i1.start + 1 : Int) : ℚ) * 100)),
              ("overlap_percentage_int2",
                .rat (((min i1.«end» i2.«end» - max i1.start i2.start + 1 : Int) : ℚ) /
                  ((i2.«end» - i2.start + 1 : Int) : ℚ) * 100))])])]) ∧
    (∀ (self : AlphaGenomeClient) (i : IntervalDict),
      0 ≤ i.start → i.start < i.«end» →
      lookup3 (AlphaGenomeClient.calculate_genomic_overlap self i i)
        "result" "overlap_stats" "overlap_percentage_int1" = some (.rat 100) ∧
      lookup3 (AlphaGenomeClient.calculate_genomic_overlap self i i)
        "result" "overlap_stats" "overlap_percentage_int2" = some (.rat 100)) := by
  constructor
  · intro self i1 i2 h1a h1b h1c h2a h2b h2c hov
    exact calc_overlap_eval self i1 i2 h1a h1b h1c h2a h2b h2c hov
  · intro self i h0 hlt
    have hov : Interval.overlaps ⟨i.chromosome, i.start, i.«end»⟩
        ⟨i.chromosome, i.start, i.«end»⟩ = true := by
      unfold Interval.overlaps
      simp [hlt]
    have heval := calc_overlap_eval self i i h0 (by omega) (by omega) h0 (by omega) (by omega) hov
    have hq : ((i.«end» - i.start + 1 : Int) : ℚ) ≠ 0 := by
      have hz : i.«end» - i.start + 1 ≠ 0 := by omega
      exact_mod_cast hz
    constructor <;>
      (rw [heval]
       simp [lookup3, lookup2, dictLookup, assocLookup, max_self, min_self]
       push_cast at hq
       exact div_self hq)

/-- Witness for C6 at two concrete overlapping intervals and one identical
pair. -/
theorem C6_overlap_stats_witness :
    (AlphaGenomeClient.calculate_genomic_overlap okSelf ⟨"chr1", 100, 200⟩ ⟨"chr1", 150, 250⟩ =
      .dict [("success", .bool true),
        ("result", .dict [
          ("overlaps", .bool true),
          ("interval1", .str (fmtInterval "chr1" 100 200)),
          ("interval2", .str (fmtInterval "chr1" 150 250)),
          ("intersection", .dict [
            ("chromosome", .str "chr1"),
            ("start", .int (max (100 : Int) 150)),
            ("end", .int (min (200 : Int) 250)),
            ("length", .int (min (200 : Int) 250 - max (100 : Int) 150 + 1))]),
          ("overlap_stats", .dict [
            ("overlap_length", .int (min (200 : Int) 250 - max (100 : Int) 150 + 1)),
            ("interval1_length", .int ((200 : Int) - 100 + 1)),
            ("interval2_length", .int ((250 : Int) - 150 + 1)),
            ("overlap_percentage_int1",
              .rat (((min (200 : Int) 250 - max (100 : Int) 150 + 1 : Int) : ℚ) /
                (((200 : Int) - 100 + 1 : Int) : ℚ) * 100)),
            ("overlap_percentage_int2",
              .rat (((min (200 : Int) 250 - max (100 : Int) 150 + 1 : Int) : ℚ) /
                (((250 : Int) - 150 + 1 : Int) : ℚ) * 100))])])]) ∧
    (lookup3 (AlphaGenomeClient.calculate_genomic_overlap okSelf ⟨"chr1", 100, 200⟩ ⟨"chr1", 100, 200⟩)
      "result" "overlap_stats" "overlap_percentage_int1" = some (.rat 100)) :=
  ⟨C6_overlap_stats.1 okSelf ⟨"chr1", 100, 200⟩ ⟨"chr1", 150, 250⟩
      (by norm_num) (by norm_num) (by norm_num) (by norm_num) (by norm_num) (by norm_num)
      (by decide),
   (C6_overlap_stats.2 okSelf ⟨"chr1", 100, 200⟩ (by norm_num) (by norm_num)).1⟩

end AG
